import Mathlib

/-!
Verification development for the plasma heat-transfer simulation core
(`src/backend/src/simulation/solver.rs`, `state.rs`, `ffi/bindings.rs`).

Floating-point (`f64`/`f32`) arithmetic is embedded over `ℚ` (exact
rational arithmetic, the usual real-number idealisation of the code);
`Result<T, String>` becomes `Except String T`; `ndarray::Array2`
becomes a total function `ℕ → ℕ → ℚ`; `ndarray::Array3` keeps its
dimensions explicitly because the foreign boundary inspects its shape.

The repository files `simulation/mesh.rs`, `simulation/physics.rs` and
`simulation/materials.rs` are referenced by the solver but are not part
of the provided sources; the definitions standing in for them are
marked `Modelled from the spec:` and follow the specification text.
-/

/-- A 3-dimensional array of rationals with explicit dimensions, the
embedding of `ndarray::Array3<f64>`.  The payload is a total function;
only indices below the dimensions are meaningful. -/
structure Array3 where
  dim0 : ℕ
  dim1 : ℕ
  dim2 : ℕ
  data : ℕ → ℕ → ℕ → ℚ

/-- Embedding of `Array3::<f64>::zeros((a, b, c))`. -/
def Array3.zeros (a b c : ℕ) : Array3 :=
  ⟨a, b, c, fun _ _ _ => 0⟩

/-- Embedding of `arr.slice_mut(s![.., .., k]).assign(&v)`: overwrite
slice `k` of the last dimension with the 2-d field `v`. -/
def Array3.assignSlice (arr : Array3) (k : ℕ) (v : ℕ → ℕ → ℚ) : Array3 :=
  { arr with data := fun i j k2 => if k2 = k then v i j else arr.data i j k2 }

/-- Embedding of `view.get([i, j])` on the 2-d view `arr[.., .., k]`:
`some` value inside bounds, `none` outside. -/
def Array3.get2 (arr : Array3) (i j k : ℕ) : Option ℚ :=
  if i < arr.dim0 ∧ j < arr.dim1 then some (arr.data i j k) else none

/-- The exact rational value of the `f64` constant `std::f64::consts::PI`,
used by the mesh volume formula. -/
def float_pi : ℚ := 884279719003555 / 281474976710656

/-- Modelled from the spec: `simulation/physics.rs` is not among the
sources.  Spec §3 (Torch): a directional heat emitter at `(r_p, z_p)`
with pitch and yaw angles, electrical power, gas flow rate and gas
temperature, carrying a stable string id. -/
structure PlasmaTorch where
  id : String
  r_position : ℚ
  z_position : ℚ
  pitch : ℚ
  yaw : ℚ
  power : ℚ
  gas_flow : ℚ
  gas_temperature : ℚ
deriving DecidableEq

/-- Modelled from the spec: `simulation/materials.rs` is not among the
sources.  Spec §3 (Material): name, density, specific heat, thermal
conductivity, moisture content, emissivity, and four optional phase
parameters (a `none` means "not set"). -/
structure MaterialProperties where
  name : String
  density : ℚ
  specific_heat : ℚ
  thermal_conductivity : ℚ
  emissivity : ℚ
  moisture_content : ℚ
  melting_point : Option ℚ
  latent_heat_fusion : Option ℚ
  vaporization_point : Option ℚ
  latent_heat_vaporization : Option ℚ
deriving DecidableEq

/-- Modelled from the spec: `MaterialProperties::new(name, ρ₀, cₚ₀, k₀)`
sets the optionals to none, emissivity to 0 and moisture to 0
(spec §4.B). -/
def MaterialProperties.new (name : String) (rho cp k : ℚ) : MaterialProperties :=
  ⟨name, rho, cp, k, 0, 0, none, none, none, none⟩

/-- Modelled from the spec: `get_density(T)` returns the baseline
stored density (spec §3.B: "baseline is the stored value"). -/
def MaterialProperties.get_density (m : MaterialProperties) (_temp : ℚ) : ℚ :=
  m.density

/-- Modelled from the spec: `get_specific_heat(T)` returns the baseline
stored specific heat. -/
def MaterialProperties.get_specific_heat (m : MaterialProperties) (_temp : ℚ) : ℚ :=
  m.specific_heat

/-- Modelled from the spec: `get_thermal_conductivity(T)` returns the
baseline stored conductivity. -/
def MaterialProperties.get_thermal_conductivity (m : MaterialProperties) (_temp : ℚ) : ℚ :=
  m.thermal_conductivity

/-- Modelled from the spec: `effective_specific_heat(T, Δt)` MAY be the
pure `cₚ(T)` in implementations that account for latent energy outside
this call (spec §4.B); the solver in `solver.rs` does the latent-heat
accounting in `update_phase_change_fractions`, so the pure form is the
faithful model. -/
def MaterialProperties.effective_specific_heat (m : MaterialProperties) (temp _dt : ℚ) : ℚ :=
  m.get_specific_heat temp

/-- Modelled from the spec: `simulation/mesh.rs` is not among the
sources.  Spec §4.A: node coordinates, spacings, per-cell volumes and
an optional zone map. -/
structure CylindricalMesh where
  height : ℚ
  radius : ℚ
  nr : ℕ
  nz : ℕ
  ntheta : ℕ
  dr : ℚ
  dz : ℚ
  r_coords : ℕ → ℚ
  z_coords : ℕ → ℚ
  cell_volumes : ℕ → ℕ → ℚ
  zones : Option (List (List ℕ))

/-- Modelled from the spec (§3, §4.A): `Δr = R/(Nr−1)`, `Δz = H/(Nz−1)`,
`r[i] = i·Δr`, `z[j] = j·Δz`, and `V[i,j] = π·(r_out² − r_in²)·Δz_cell`
where cell `i` spans `[0, Δr/2]` at the axis, `[r−Δr/2, R]` at the
outer wall and `[r−Δr/2, r+Δr/2]` in between, with symmetric axial
half-steps at `j = 0` and `j = Nz−1`. -/
def CylindricalMesh.new (height radius : ℚ) (nr nz ntheta : ℕ) : CylindricalMesh :=
  let dr : ℚ := radius / ((nr : ℚ) - 1)
  let dz : ℚ := height / ((nz : ℚ) - 1)
  let r_coords : ℕ → ℚ := fun i => (i : ℚ) * dr
  let z_coords : ℕ → ℚ := fun j => (j : ℚ) * dz
  { height := height
    radius := radius
    nr := nr
    nz := nz
    ntheta := ntheta
    dr := dr
    dz := dz
    r_coords := r_coords
    z_coords := z_coords
    cell_volumes := fun i j =>
      let r_in : ℚ := if i = 0 then 0 else r_coords i - dr / 2
      let r_out : ℚ := if i = nr - 1 then radius else r_coords i + dr / 2
      let z_len : ℚ := if j = 0 ∨ j = nz - 1 then dz / 2 else dz
      float_pi * (r_out * r_out - r_in * r_in) * z_len
    zones := none }

/-- Modelled from the spec (§4.A): `set_zones` stores the zone map on
the mesh (its shape check is performed by the caller
`set_zone_map` in `solver.rs`). -/
def CylindricalMesh.set_zones (m : CylindricalMesh) (z : List (List ℕ)) : CylindricalMesh :=
  { m with zones := some z }

/-- Embedding of `SimulationParameters` (`solver.rs`).  The `Array2<usize>`
zone map is embedded as a list of rows. -/
structure SimulationParameters where
  height : ℚ
  radius : ℚ
  nr : ℕ
  nz : ℕ
  ntheta : ℕ
  torches : List PlasmaTorch
  material : MaterialProperties
  material_zones : Option (List (String × MaterialProperties))
  initial_temperature : ℚ
  ambient_temperature : ℚ
  convection_coefficient : ℚ
  enable_convection : Bool
  enable_radiation : Bool
  enable_phase_changes : Bool
  total_time : ℚ
  time_step : ℚ
  time_steps : ℕ
  zone_map : Option (List (List ℕ))

/-- Embedding of `SimulationParameters::add_torch`. -/
def SimulationParameters.add_torch (p : SimulationParameters) (t : PlasmaTorch) :
    SimulationParameters :=
  { p with torches := p.torches ++ [t] }

/-- Embedding of `SimulationParameters::remove_torch`:
`self.torches.retain(|t| t.id != torch_id)` and report whether the
list shrank. -/
def SimulationParameters.remove_torch (p : SimulationParameters) (torch_id : String) :
    SimulationParameters × Bool :=
  let kept := p.torches.filter (fun t => t.id ≠ torch_id)
  ({ p with torches := kept }, kept.length < p.torches.length)

/-- Embedding of `SimulationParameters::set_material`. -/
def SimulationParameters.set_material (p : SimulationParameters) (m : MaterialProperties) :
    SimulationParameters :=
  { p with material := m }

/-- Helper for `validate`: the per-torch position checks, in source
order (radial bound first, then axial bound, first offender reported). -/
def validateTorchPositions (radius height : ℚ) : List PlasmaTorch → Except String Unit
  | [] => Except.ok ()
  | t :: ts =>
    if t.r_position < 0 ∨ t.r_position > radius then
      Except.error ("Posição radial da tocha " ++ t.id ++ " fora dos limites")
    else if t.z_position < 0 ∨ t.z_position > height then
      Except.error ("Posição axial da tocha " ++ t.id ++ " fora dos limites")
    else validateTorchPositions radius height ts

/-- Helper for `validate`: the duplicate-id scan.  The source walks the
torch list keeping the ids already seen and errors on the first id
contained in that list. -/
def validateTorchIds (seen : List String) : List PlasmaTorch → Except String Unit
  | [] => Except.ok ()
  | t :: ts =>
    if t.id ∈ seen then Except.error ("ID de tocha duplicado: " ++ t.id)
    else validateTorchIds (t.id :: seen) ts

/-- The largest entry of the zone map, `zone_map.iter().max().unwrap_or(&0)`. -/
def zoneMapMax (zm : List (List ℕ)) : ℕ :=
  zm.flatten.foldl max 0

/-- Whether any zone-map entry is positive, `zone_map.iter().any(|&z| z > 0)`. -/
def zoneMapAnyPos (zm : List (List ℕ)) : Bool :=
  zm.flatten.any (fun z => decide (0 < z))

/-- Embedding of `SimulationParameters::validate`, check for check in
source order. -/
def SimulationParameters.validate (p : SimulationParameters) : Except String Unit :=
  if p.height ≤ 0 then Except.error "Altura deve ser positiva"
  else if p.radius ≤ 0 then Except.error "Raio deve ser positivo"
  else if p.nr < 2 then Except.error "Número de nós radiais deve ser pelo menos 2"
  else if p.nz < 2 then Except.error "Número de nós axiais deve ser pelo menos 2"
  else if p.ntheta < 4 then Except.error "Número de nós angulares deve ser pelo menos 4"
  else if p.torches.isEmpty then Except.error "Pelo menos uma tocha deve ser definida"
  else if p.time_step ≤ 0 then Except.error "Passo de tempo deve ser positivo"
  else if p.total_time ≤ 0 then Except.error "Tempo total deve ser positivo"
  else
    match validateTorchPositions p.radius p.height p.torches with
    | Except.error e => Except.error e
    | Except.ok () =>
      match validateTorchIds [] p.torches with
      | Except.error e => Except.error e
      | Except.ok () =>
        match p.zone_map with
        | none => Except.ok ()
        | some zm =>
          match p.material_zones with
          | some mz =>
            if mz.length ≤ zoneMapMax zm then
              Except.error "Zona de material não definida"
            else Except.ok ()
          | none =>
            if zoneMapAnyPos zm then
              Except.error "Mapa de zonas definido, mas nenhuma zona de material configurada"
            else Except.ok ()

/-- Embedding of `HeatSources` (`physics.rs` struct used by the solver).
Modelled from the spec: two per-cell source fields. -/
structure HeatSources where
  radiation : ℕ → ℕ → ℚ
  convection : ℕ → ℕ → ℚ

/-- Modelled from the spec: `HeatSources::new(nr, nz)` starts as two
zero fields. -/
def HeatSources.new (_nr _nz : ℕ) : HeatSources :=
  ⟨fun _ _ => 0, fun _ _ => 0⟩

/-- Modelled from the spec (§4.C): the total source is
`Q = Q_rad + Q_conv`. -/
def HeatSources.total (s : HeatSources) : ℕ → ℕ → ℚ :=
  fun i j => s.radiation i j + s.convection i j

/-- Modelled from the spec: the torch source-field builders
`calculate_radiation_source` and `calculate_convection_source` live in
the missing `physics.rs`; they are kept abstract as parameters of the
solver embedding, with the signatures the solver calls them at. -/
structure PhysicsModel where
  calculate_radiation_source :
    CylindricalMesh → List PlasmaTorch → (ℕ → ℕ → ℚ) → MaterialProperties → (ℕ → ℕ → ℚ)
  calculate_convection_source :
    CylindricalMesh → List PlasmaTorch → (ℕ → ℕ → ℚ) → ℚ → (ℕ → ℕ → ℚ)

/-- A concrete physics model usable to instantiate theorems that hold
for every `PhysicsModel`. -/
def trivialPhysics : PhysicsModel :=
  ⟨fun _ _ _ _ _ _ => 0, fun _ _ _ _ _ _ => 0⟩

/-- Embedding of `PhaseChangeInfo` (`solver.rs`). -/
structure PhaseChangeInfo where
  melt_fraction : Option Array3
  vapor_fraction : Option Array3
  total_phase_change_energy : ℚ

/-- Embedding of `SimulationResults` (`solver.rs`).  The wall-clock
`execution_time` is not modellable and is embedded as `0`. -/
structure SimulationResults where
  parameters : SimulationParameters
  mesh : CylindricalMesh
  temperature : Array3
  execution_time : ℚ
  phase_change_info : Option PhaseChangeInfo

/-- Embedding of the `HeatSolver` state (`solver.rs`). -/
structure HeatSolver where
  params : SimulationParameters
  mesh : CylindricalMesh
  temperature : ℕ → ℕ → ℚ
  temperature_history : Array3
  melt_fraction : Option (ℕ → ℕ → ℚ)
  melt_fraction_history : Option Array3
  vapor_fraction : Option (ℕ → ℕ → ℚ)
  vapor_fraction_history : Option Array3
  total_phase_change_energy : ℚ
  current_step : ℕ

/-- The solver state built by `HeatSolver::new` after the parameters
validated: uniform initial temperature, a history of `time_steps + 1`
slices with slice 0 holding the initial condition, phase-fraction
arrays allocated exactly when phase changes are enabled and the
material has a melting or vaporization point, and the zone map copied
onto the mesh. -/
def HeatSolver.newCore (params : SimulationParameters) : HeatSolver :=
  let mesh0 := CylindricalMesh.new params.height params.radius params.nr params.nz params.ntheta
  let mesh :=
    match params.zone_map with
    | some zm => mesh0.set_zones zm
    | none => mesh0
  let temperature : ℕ → ℕ → ℚ := fun _ _ => params.initial_temperature
  let temperature_history :=
    (Array3.zeros params.nr params.nz (params.time_steps + 1)).assignSlice 0 temperature
  let phase :=
    params.enable_phase_changes &&
      (params.material.melting_point.isSome || params.material.vaporization_point.isSome)
  { params := params
    mesh := mesh
    temperature := temperature
    temperature_history := temperature_history
    melt_fraction := if phase then some (fun _ _ => 0) else none
    melt_fraction_history :=
      if phase then some (Array3.zeros params.nr params.nz (params.time_steps + 1)) else none
    vapor_fraction := if phase then some (fun _ _ => 0) else none
    vapor_fraction_history :=
      if phase then some (Array3.zeros params.nr params.nz (params.time_steps + 1)) else none
    total_phase_change_energy := 0
    current_step := 0 }

/-- Embedding of `HeatSolver::new`: validate, then build the state. -/
def HeatSolver.new (params : SimulationParameters) : Except String HeatSolver :=
  match params.validate with
  | Except.error e => Except.error e
  | Except.ok () => Except.ok (HeatSolver.newCore params)

/-- Embedding of `HeatSolver::calculate_sources`: each source field is
built only when its flag is enabled, otherwise it stays the zero field
of `HeatSources::new`. -/
def HeatSolver.calculate_sources (phys : PhysicsModel) (s : HeatSolver) : HeatSources :=
  let base := HeatSources.new s.params.nr s.params.nz
  { radiation :=
      if s.params.enable_radiation then
        phys.calculate_radiation_source s.mesh s.params.torches s.temperature s.params.material
      else base.radiation
    convection :=
      if s.params.enable_convection then
        phys.calculate_convection_source s.mesh s.params.torches s.temperature
          s.params.convection_coefficient
      else base.convection }

/-- The per-cell body of the `solve_time_step` double loop: the
accumulated conduction term (radial branch, then axial branch, each
added onto the running `conduction_term` that starts at `0.0`) and the
explicit update.  All temperature reads are from `s.temperature`, the
previous-step field. -/
def HeatSolver.updateCell (s : HeatSolver) (sources : HeatSources) (i j : ℕ) : ℚ :=
  let r := s.mesh.r_coords i
  let dr := s.mesh.dr
  let dz := s.mesh.dz
  let temp := s.temperature i j
  let rho := s.params.material.get_density temp
  let cp := s.params.material.get_specific_heat temp
  let k := s.params.material.get_thermal_conductivity temp
  let cp_eff :=
    if s.params.enable_phase_changes then
      s.params.material.effective_specific_heat temp s.params.time_step
    else cp
  let source := sources.total i j
  let conduction_radial : ℚ :=
    if i = 0 then
      0 + 2 * k * (s.temperature (i + 1) j - temp) / (dr * dr)
    else if i = s.params.nr - 1 then
      0 + k * (s.temperature (i - 1) j - temp) / (dr * dr)
        + 2 * k * (s.params.ambient_temperature - temp) / (dr * dr)
    else
      0 + k * (s.temperature (i - 1) j - 2 * temp + s.temperature (i + 1) j) / (dr * dr)
        + k * (s.temperature (i + 1) j - s.temperature (i - 1) j) / (2 * r * dr)
  let conduction_term : ℚ :=
    if j = 0 then
      conduction_radial + k * (s.temperature i (j + 1) - temp) / (dz * dz)
        + k * (s.params.ambient_temperature - temp) / (dz * dz)
    else if j = s.params.nz - 1 then
      conduction_radial + k * (s.temperature i (j - 1) - temp) / (dz * dz)
        + k * (s.params.ambient_temperature - temp) / (dz * dz)
    else
      conduction_radial
        + k * (s.temperature i (j - 1) - 2 * temp + s.temperature i (j + 1)) / (dz * dz)
  temp + s.params.time_step * (conduction_term + source) / (rho * cp_eff)

/-- The state transformation of `solve_time_step`: every in-grid cell
of the cloned field is overwritten with `updateCell`; reads only touch
the previous-step field. -/
def HeatSolver.solveStepCore (s : HeatSolver) (sources : HeatSources) : HeatSolver :=
  { s with
    temperature := fun i j =>
      if i < s.params.nr ∧ j < s.params.nz then s.updateCell sources i j
      else s.temperature i j }

/-- Embedding of `HeatSolver::solve_time_step`; the body never reaches
an error return, so the `Result` is always `Ok`. -/
def HeatSolver.solve_time_step (s : HeatSolver) (sources : HeatSources) :
    Except String HeatSolver :=
  Except.ok (s.solveStepCore sources)

/-- The melting part of `update_phase_change_fractions`: runs only when
both `melting_point` and `latent_heat_fusion` are set; allocates the
melt-fraction array at zero when absent; for every in-grid cell above
the melting point with fraction below 1, consumes
`min(m·cₚ·(T−T_m), m·L_f·(1−χ_m))`, raises the fraction by
`used/(m·L_f)` clamped to 1, and accumulates the used energy. -/
def HeatSolver.updateMelt (s : HeatSolver) : HeatSolver :=
  match s.params.material.melting_point, s.params.material.latent_heat_fusion with
  | some melting_point, some latent_heat =>
    let mf := s.melt_fraction.getD (fun _ _ => 0)
    let mass : ℕ → ℕ → ℚ := fun i j =>
      s.params.material.get_density (s.temperature i j) * s.mesh.cell_volumes i j
    let used : ℕ → ℕ → ℚ := fun i j =>
      if s.temperature i j > melting_point ∧ mf i j < 1 then
        min (mass i j * s.params.material.get_specific_heat (s.temperature i j)
              * (s.temperature i j - melting_point))
            (mass i j * latent_heat * (1 - mf i j))
      else 0
    { s with
      melt_fraction := some (fun i j =>
        if i < s.params.nr ∧ j < s.params.nz then
          if s.temperature i j > melting_point ∧ mf i j < 1 then
            min (mf i j + used i j / (mass i j * latent_heat)) 1
          else mf i j
        else mf i j)
      total_phase_change_energy := s.total_phase_change_energy +
        ∑ i ∈ Finset.range s.params.nr, ∑ j ∈ Finset.range s.params.nz, used i j }
  | _, _ => s

/-- The vaporization part of `update_phase_change_fractions`: as for
melting with `vaporization_point`/`latent_heat_vaporization`, but a
cell vaporizes only when it is "fully melted": when a melt-fraction
array exists its entry must be at least 1, and only when no array
exists is the cell treated as melted. -/
def HeatSolver.updateVapor (s : HeatSolver) : HeatSolver :=
  match s.params.material.vaporization_point, s.params.material.latent_heat_vaporization with
  | some vaporization_point, some latent_heat =>
    let vf := s.vapor_fraction.getD (fun _ _ => 0)
    let fullyMelted : ℕ → ℕ → Bool := fun i j =>
      match s.melt_fraction with
      | some mf => decide (mf i j ≥ 1)
      | none => true
    let mass : ℕ → ℕ → ℚ := fun i j =>
      s.params.material.get_density (s.temperature i j) * s.mesh.cell_volumes i j
    let used : ℕ → ℕ → ℚ := fun i j =>
      if s.temperature i j > vaporization_point ∧ vf i j < 1 then
        if fullyMelted i j then
          min (mass i j * s.params.material.get_specific_heat (s.temperature i j)
                * (s.temperature i j - vaporization_point))
              (mass i j * latent_heat * (1 - vf i j))
        else 0
      else 0
    { s with
      vapor_fraction := some (fun i j =>
        if i < s.params.nr ∧ j < s.params.nz then
          if s.temperature i j > vaporization_point ∧ vf i j < 1 then
            if fullyMelted i j then
              min (vf i j + used i j / (mass i j * latent_heat)) 1
            else vf i j
          else vf i j
        else vf i j)
      total_phase_change_energy := s.total_phase_change_energy +
        ∑ i ∈ Finset.range s.params.nr, ∑ j ∈ Finset.range s.params.nz, used i j }
  | _, _ => s

/-- The state transformation of `update_phase_change_fractions`: early
return when phase changes are disabled, else the melt pass followed by
the vapor pass (the vapor pass reads the melt fractions the melt pass
just wrote, as the source does through `&self.melt_fraction`). -/
def HeatSolver.updatePhaseCore (s : HeatSolver) : HeatSolver :=
  if s.params.enable_phase_changes then s.updateMelt.updateVapor else s

/-- Embedding of `HeatSolver::update_phase_change_fractions`; the body
never reaches an error return, so the `Result` is always `Ok`. -/
def HeatSolver.update_phase_change_fractions (s : HeatSolver) : Except String HeatSolver :=
  Except.ok s.updatePhaseCore

/-- The computational part of one iteration of the main loop of
`HeatSolver::run` at step index `step`: record the step, build the
sources, advance the temperature, and update the phase fractions when
enabled. -/
def HeatSolver.advance (phys : PhysicsModel) (s : HeatSolver) (step : ℕ) : HeatSolver :=
  let s0 := { s with current_step := step }
  let sources := HeatSolver.calculate_sources phys s0
  let s1 := s0.solveStepCore sources
  if s1.params.enable_phase_changes then s1.updatePhaseCore else s1

/-- The history part of one loop iteration: write the current field
and, when present, the phase fractions to history slice `step + 1`. -/
def HeatSolver.writeHistories (s : HeatSolver) (step : ℕ) : HeatSolver :=
  let s3 := { s with
    temperature_history := s.temperature_history.assignSlice (step + 1) s.temperature }
  let s4 :=
    match s3.melt_fraction, s3.melt_fraction_history with
    | some mf, some hist =>
      { s3 with melt_fraction_history := some (hist.assignSlice (step + 1) mf) }
    | _, _ => s3
  match s4.vapor_fraction, s4.vapor_fraction_history with
  | some vfr, some hist =>
    { s4 with vapor_fraction_history := some (hist.assignSlice (step + 1) vfr) }
  | _, _ => s4

/-- One iteration of the main loop of `HeatSolver::run` at step index
`step`.  The fallible sub-steps are total (always `Ok`), so the loop
body is a pure transformation. -/
def HeatSolver.stepCore (phys : PhysicsModel) (s : HeatSolver) (step : ℕ) : HeatSolver :=
  (HeatSolver.advance phys s step).writeHistories step

/-- The first `n` iterations of the main loop (step indices `0 … n−1`). -/
def HeatSolver.runN (phys : PhysicsModel) (s : HeatSolver) : ℕ → HeatSolver
  | 0 => s
  | n + 1 => HeatSolver.stepCore phys (HeatSolver.runN phys s n) n

/-- Embedding of `HeatSolver::run`: iterate the loop body over all
`time_steps` step indices, then package the results (the progress
callback only reports progress and is dropped from the pure model; the
wall-clock execution time is embedded as 0). -/
def HeatSolver.run (phys : PhysicsModel) (s : HeatSolver) : Except String SimulationResults :=
  let sf := HeatSolver.runN phys s s.params.time_steps
  let phase_change_info :=
    if sf.params.enable_phase_changes &&
        (sf.melt_fraction_history.isSome || sf.vapor_fraction_history.isSome) then
      some { melt_fraction := sf.melt_fraction_history
             vapor_fraction := sf.vapor_fraction_history
             total_phase_change_energy := sf.total_phase_change_energy }
    else none
  Except.ok
    { parameters := sf.params
      mesh := sf.mesh
      temperature := sf.temperature_history
      execution_time := 0
      phase_change_info := phase_change_info }

/-- The melt fraction of cell `(i, j)` read through the optional array
(0 when the array is absent, as for an all-zero allocation). -/
def HeatSolver.meltAt (s : HeatSolver) (i j : ℕ) : ℚ :=
  (s.melt_fraction.getD (fun _ _ => 0)) i j

/-- The vapor fraction of cell `(i, j)` read through the optional array. -/
def HeatSolver.vaporAt (s : HeatSolver) (i j : ℕ) : ℚ :=
  (s.vapor_fraction.getD (fun _ _ => 0)) i j

/-- Embedding of `SimulationStatus` (`state.rs`): note the source has
no `Cancelled` variant. -/
inductive SimulationStatus where
  | NotStarted
  | Running
  | Paused
  | Completed
  | Failed
deriving DecidableEq

/-- Embedding of `SimulationState` (`state.rs`); `start_time` is an
`Option<Instant>` whose only observable content is its presence. -/
structure SimulationState where
  parameters : SimulationParameters
  status : SimulationStatus
  progress : ℚ
  error_message : Option String
  results : Option SimulationResults
  start_time : Option Unit
  execution_time : ℚ

/-- Embedding of `SimulationState::new`. -/
def SimulationState.new (parameters : SimulationParameters) : SimulationState :=
  { parameters := parameters
    status := SimulationStatus.NotStarted
    progress := 0
    error_message := none
    results := none
    start_time := none
    execution_time := 0 }

/-- Embedding of `SimulationState::start`.  A mutating
`Result<(), String>` method is embedded as the pair of the state after
the call and the returned `Result`; on the error path the source
returns before any field write, so the state is unchanged. -/
def SimulationState.start (s : SimulationState) : SimulationState × Except String Unit :=
  if s.status = SimulationStatus.Running then
    (s, Except.error "Simulação já está em execução")
  else
    ({ s with
        status := SimulationStatus.Running
        progress := 0
        error_message := none
        start_time := some () },
      Except.ok ())

/-- Embedding of `SimulationState::pause`. -/
def SimulationState.pause (s : SimulationState) : SimulationState × Except String Unit :=
  if s.status ≠ SimulationStatus.Running then
    (s, Except.error "Simulação não está em execução")
  else ({ s with status := SimulationStatus.Paused }, Except.ok ())

/-- Embedding of `SimulationState::resume`. -/
def SimulationState.resume (s : SimulationState) : SimulationState × Except String Unit :=
  if s.status ≠ SimulationStatus.Paused then
    (s, Except.error "Simulação não está pausada")
  else ({ s with status := SimulationStatus.Running }, Except.ok ())

/-- Embedding of `SimulationState::update_progress`. -/
def SimulationState.update_progress (s : SimulationState) (progress : ℚ) : SimulationState :=
  { s with progress := progress }

/-- Embedding of `SimulationState::complete`: unconditional, whatever
the current status (`execution_time` is wall clock, embedded as 0 when
a start time is present). -/
def SimulationState.complete (s : SimulationState) (results : SimulationResults) :
    SimulationState :=
  { s with
    status := SimulationStatus.Completed
    progress := 1
    results := some results
    execution_time := if s.start_time.isSome then 0 else s.execution_time }

/-- Embedding of `SimulationState::fail`: unconditional, whatever the
current status. -/
def SimulationState.fail (s : SimulationState) (error_message : String) : SimulationState :=
  { s with
    status := SimulationStatus.Failed
    error_message := some error_message
    execution_time := if s.start_time.isSome then 0 else s.execution_time }

/-- Embedding of `SimulationState::is_completed`. -/
def SimulationState.is_completed (s : SimulationState) : Bool :=
  s.status = SimulationStatus.Completed

/-- Embedding of `SimulationState::is_failed`. -/
def SimulationState.is_failed (s : SimulationState) : Bool :=
  s.status = SimulationStatus.Failed

/-- Embedding of the worker-thread body spawned by
`SharedSimulationState::run_simulation` (`state.rs`): build the solver
(failing the state on a construction error), run it, and store either
the completed results or the failure message.  The progress callback
only publishes progress and pause waits and does not alter the
terminal outcome. -/
def workerBody (phys : PhysicsModel) (parameters : SimulationParameters)
    (st : SimulationState) : SimulationState :=
  match HeatSolver.new parameters with
  | Except.error e => st.fail e
  | Except.ok solver =>
    match HeatSolver.run phys solver with
    | Except.ok results => st.complete results
    | Except.error e => st.fail e

/-- Embedding of the FFI entry point `get_temperature_data`
(`ffi/bindings.rs`): the returned status code together with the values
written into the caller buffer (row-major, `i` outer).  The null-buffer
and not-initialized guards concern raw pointers and the global handle
and are outside this model; the embedded body starts at the
state inspection under the lock.  The `temp_shape.len() != 3` half of
the shape guard is always false for a 3-d array and drops out. -/
def get_temperature_data (state : SimulationState) (time_step : ℤ) (buffer_size : ℕ) :
    ℤ × List ℚ :=
  if ¬ state.is_completed ∨ state.results.isNone then (-4, [])
  else
    match state.results with
    | none => (-4, [])
    | some results =>
      let nr := state.parameters.nr
      let nz := state.parameters.nz
      let total_steps := state.parameters.time_steps
      if total_steps ≠ results.temperature.dim2 then (-9, [])
      else if time_step < 0 ∨ total_steps ≤ time_step.toNat then (-3, [])
      else
        let required_size := nr * nz
        if buffer_size < required_size then (-6, [])
        else
          let cells := (List.range nr).flatMap (fun i => (List.range nz).map (fun j => (i, j)))
          match cells.mapM (fun c => results.temperature.get2 c.1 c.2 time_step.toNat) with
          | none => (-8, [])
          | some vals => ((required_size : ℤ), vals)

/-- Transcribed from the spec (§4.D step 2): the radial stencil the
claims state, `2k(T[1,j]−T[0,j])/Δr²` at the axis, curvature plus the
`1/r` polar term inside, one-sided inner diffusion plus
Dirichlet-to-ambient at the outer wall. -/
def specRadialStencil (s : HeatSolver) (i j : ℕ) : ℚ :=
  let k := s.params.material.get_thermal_conductivity (s.temperature i j)
  let dr := s.mesh.dr
  if i = 0 then
    2 * k * (s.temperature 1 j - s.temperature 0 j) / dr ^ 2
  else if i = s.params.nr - 1 then
    k * (s.temperature (i - 1) j - s.temperature i j) / dr ^ 2
      + 2 * k * (s.params.ambient_temperature - s.temperature i j) / dr ^ 2
  else
    k * (s.temperature (i - 1) j - 2 * s.temperature i j + s.temperature (i + 1) j) / dr ^ 2
      + k * (s.temperature (i + 1) j - s.temperature (i - 1) j) / (2 * s.mesh.r_coords i * dr)

/-- Transcribed from the spec (§4.D step 3): the axial stencil,
Dirichlet-to-ambient plus one-sided inner diffusion at both end
planes, centered inside. -/
def specAxialStencil (s : HeatSolver) (i j : ℕ) : ℚ :=
  let k := s.params.material.get_thermal_conductivity (s.temperature i j)
  let dz := s.mesh.dz
  if j = 0 then
    k * (s.temperature i 1 - s.temperature i j) / dz ^ 2
      + k * (s.params.ambient_temperature - s.temperature i j) / dz ^ 2
  else if j = s.params.nz - 1 then
    k * (s.temperature i (j - 1) - s.temperature i j) / dz ^ 2
      + k * (s.params.ambient_temperature - s.temperature i j) / dz ^ 2
  else
    k * (s.temperature i (j - 1) - 2 * s.temperature i j + s.temperature i (j + 1)) / dz ^ 2

/-- Transcribed from the spec (§4.D step 5 and claim C6): the update
`T[i,j]ⁿ⁺¹ = T[i,j]ⁿ + Δt·(radial + axial + Q[i,j])/(ρ(T)·cₚ_eff(T))`
with all properties evaluated at the previous-step temperature. -/
def specUpdateFormula (s : HeatSolver) (sources : HeatSources) (i j : ℕ) : ℚ :=
  let temp := s.temperature i j
  let cp_eff :=
    if s.params.enable_phase_changes then
      s.params.material.effective_specific_heat temp s.params.time_step
    else s.params.material.get_specific_heat temp
  s.temperature i j +
    s.params.time_step * (specRadialStencil s i j + specAxialStencil s i j + sources.total i j)
      / (s.params.material.get_density temp * cp_eff)

/-- Transcribed from the claim C9 wording, zone-map clause: only when
both a zone map and material zones are present does the claim impose
the bound on the maximum zone index. -/
def specZoneClaimCond (p : SimulationParameters) : Prop :=
  match p.zone_map, p.material_zones with
  | some zm, some mz => zoneMapMax zm < mz.length
  | _, _ => True

instance specZoneClaimCondDecidable (p : SimulationParameters) :
    Decidable (specZoneClaimCond p) := by
  unfold specZoneClaimCond
  rcases p.zone_map with _ | zm <;> rcases p.material_zones with _ | mz <;>
    simp only [] <;> infer_instance

/-- Transcribed from the claim C9 wording: the validity condition the
claim says is equivalent to `validate` succeeding — all scalar bounds,
non-empty torch list, in-bounds torch positions, no duplicate ids, and
(only when both a zone map and material zones are present) the maximum
zone index below the number of material zones. -/
def specValidCond (p : SimulationParameters) : Prop :=
  0 < p.height ∧ 0 < p.radius ∧ 2 ≤ p.nr ∧ 2 ≤ p.nz ∧ 4 ≤ p.ntheta ∧
  0 < p.time_step ∧ 0 < p.total_time ∧ p.torches ≠ [] ∧
  (∀ t ∈ p.torches, 0 ≤ t.r_position ∧ t.r_position ≤ p.radius ∧
    0 ≤ t.z_position ∧ t.z_position ≤ p.height) ∧
  (p.torches.map PlasmaTorch.id).Nodup ∧ specZoneClaimCond p

instance (p : SimulationParameters) : Decidable (specValidCond p) := by
  unfold specValidCond
  infer_instance

/-- A steel-like material used by the concrete instances. -/
def steelLike : MaterialProperties := MaterialProperties.new "steel" 7850 490 45

/-- A concrete torch at the axis base, inside the cylinder bounds. -/
def exampleTorch : PlasmaTorch :=
  { id := "torch1", r_position := 0, z_position := 0, pitch := 90, yaw := 0,
    power := 100, gas_flow := 1 / 100, gas_temperature := 1000 }

/-- A small valid parameter set: 2×2 grid, one torch, one time step,
all optional physics disabled. -/
def baseParams : SimulationParameters :=
  { height := 1, radius := 1, nr := 2, nz := 2, ntheta := 4,
    torches := [exampleTorch], material := steelLike, material_zones := none,
    initial_temperature := 25, ambient_temperature := 25, convection_coefficient := 10,
    enable_convection := false, enable_radiation := false, enable_phase_changes := false,
    total_time := 1, time_step := 1, time_steps := 1, zone_map := none }

/-- The solver state built from `baseParams` (whose validation
succeeds, so `HeatSolver.new baseParams` returns exactly this state). -/
def exampleSolverBase : HeatSolver := HeatSolver.newCore baseParams

/-- A concrete empty results bundle, used as a fallback value and as a
stored-results payload for lifecycle states. -/
def emptyResults : SimulationResults :=
  { parameters := baseParams, mesh := CylindricalMesh.new 1 1 2 2 4,
    temperature := Array3.zeros 2 2 2, execution_time := 0, phase_change_info := none }

/-- A lifecycle state observed in `Paused`. -/
def examplePausedState : SimulationState :=
  { SimulationState.new baseParams with status := SimulationStatus.Paused }

/-- A lifecycle state observed in `Completed`. -/
def exampleCompletedStateA : SimulationState :=
  { SimulationState.new baseParams with status := SimulationStatus.Completed }

/-- A lifecycle state observed in `Failed`. -/
def exampleFailedState : SimulationState :=
  { SimulationState.new baseParams with status := SimulationStatus.Failed }

/-- A 3×3-grid variant of the base parameters, giving the stencil an
interior cell. -/
def cex6Params : SimulationParameters :=
  { baseParams with nr := 3, nz := 3 }

/-- A concrete solver state over the 3×3 grid with a non-uniform
temperature field. -/
def exampleSolver6 : HeatSolver :=
  { HeatSolver.newCore cex6Params with temperature := fun i j => (i : ℚ) * 10 + (j : ℚ) }

/-- Concrete non-zero source fields for the stencil witness. -/
def exampleSources6 : HeatSources :=
  ⟨fun i j => (i : ℚ) + (j : ℚ), fun i j => (i : ℚ) * (j : ℚ)⟩

/-- Base parameters with a negative (and physically sensible, in °C)
initial and ambient temperature. -/
def cex8Params : SimulationParameters :=
  { baseParams with
      initial_temperature := -1
      ambient_temperature := -1 }

/-- A material with a vaporization point and latent heat but no
melting point. -/
def vaporMaterial : MaterialProperties :=
  { MaterialProperties.new "volatile" 1 1 1 with
      vaporization_point := some 100
      latent_heat_vaporization := some 1000 }

/-- Parameters whose cells start above the vaporization point, with
phase changes enabled and no melting point set. -/
def cex3Params : SimulationParameters :=
  { baseParams with
      material := vaporMaterial
      enable_phase_changes := true
      initial_temperature := 200
      ambient_temperature := 200 }

/-- The solver state built from `cex3Params` (whose validation
succeeds, so `HeatSolver.new cex3Params` returns exactly this state). -/
def exampleSolver3 : HeatSolver := HeatSolver.newCore cex3Params

/-- The results of running the base parameters to completion. -/
def exampleResultsBase : SimulationResults :=
  (HeatSolver.run trivialPhysics exampleSolverBase).toOption.getD emptyResults

/-- The lifecycle state after a started base-parameter simulation
stores its completed results. -/
def exampleCompletedRunState : SimulationState :=
  (((SimulationState.new baseParams).start).1).complete exampleResultsBase

/-- The zone-map clause actually enforced by `validate`: with both maps
present the maximum zone index must be below the number of material
zones, and with a zone map but no material zones every entry must be
zero. -/
def validateZoneCond (p : SimulationParameters) : Prop :=
  match p.zone_map, p.material_zones with
  | some zm, some mz => zoneMapMax zm < mz.length
  | some zm, none => zoneMapAnyPos zm = false
  | none, _ => True

/-- Base parameters with a zone map holding a positive entry and no
material zones: every condition of the claim C9 list holds, yet
`validate` rejects it. -/
def cex9Params : SimulationParameters :=
  { baseParams with zone_map := some [[1, 0], [0, 0]] }

/-- A material with a melting point and latent heat of fusion. -/
def meltMaterial : MaterialProperties :=
  { MaterialProperties.new "meltable" 1 1 1 with
      melting_point := some 100
      latent_heat_fusion := some 2 }

/-- Parameters with phase changes enabled and a meltable material. -/
def cex7Params : SimulationParameters :=
  { baseParams with
      material := meltMaterial
      enable_phase_changes := true }

/-- The solver state built from `cex7Params` (whose validation
succeeds, so `HeatSolver.new cex7Params` returns exactly this state). -/
def exampleSolver7 : HeatSolver := HeatSolver.newCore cex7Params

section PreservationLemmas

variable (phys : PhysicsModel) (s : HeatSolver) (sources : HeatSources) (step : ℕ)

lemma solveStepCore_params : (s.solveStepCore sources).params = s.params := rfl

lemma solveStepCore_mesh : (s.solveStepCore sources).mesh = s.mesh := rfl

lemma solveStepCore_melt_fraction :
    (s.solveStepCore sources).melt_fraction = s.melt_fraction := rfl

lemma solveStepCore_vapor_fraction :
    (s.solveStepCore sources).vapor_fraction = s.vapor_fraction := rfl

lemma solveStepCore_energy :
    (s.solveStepCore sources).total_phase_change_energy = s.total_phase_change_energy := rfl

lemma solveStepCore_temperature_history :
    (s.solveStepCore sources).temperature_history = s.temperature_history := rfl

lemma updateMelt_params : s.updateMelt.params = s.params := by
  unfold HeatSolver.updateMelt
  rcases s.params.material.melting_point with _ | mp <;>
    rcases s.params.material.latent_heat_fusion with _ | lh <;> rfl

lemma updateMelt_mesh : s.updateMelt.mesh = s.mesh := by
  unfold HeatSolver.updateMelt
  rcases s.params.material.melting_point with _ | mp <;>
    rcases s.params.material.latent_heat_fusion with _ | lh <;> rfl

lemma updateMelt_temperature : s.updateMelt.temperature = s.temperature := by
  unfold HeatSolver.updateMelt
  rcases s.params.material.melting_point with _ | mp <;>
    rcases s.params.material.latent_heat_fusion with _ | lh <;> rfl

lemma updateMelt_temperature_history :
    s.updateMelt.temperature_history = s.temperature_history := by
  unfold HeatSolver.updateMelt
  rcases s.params.material.melting_point with _ | mp <;>
    rcases s.params.material.latent_heat_fusion with _ | lh <;> rfl

lemma updateMelt_vapor_fraction : s.updateMelt.vapor_fraction = s.vapor_fraction := by
  unfold HeatSolver.updateMelt
  rcases s.params.material.melting_point with _ | mp <;>
    rcases s.params.material.latent_heat_fusion with _ | lh <;> rfl

lemma updateVapor_params : s.updateVapor.params = s.params := by
  unfold HeatSolver.updateVapor
  rcases s.params.material.vaporization_point with _ | vp <;>
    rcases s.params.material.latent_heat_vaporization with _ | lh <;> rfl

lemma updateVapor_mesh : s.updateVapor.mesh = s.mesh := by
  unfold HeatSolver.updateVapor
  rcases s.params.material.vaporization_point with _ | vp <;>
    rcases s.params.material.latent_heat_vaporization with _ | lh <;> rfl

lemma updateVapor_temperature : s.updateVapor.temperature = s.temperature := by
  unfold HeatSolver.updateVapor
  rcases s.params.material.vaporization_point with _ | vp <;>
    rcases s.params.material.latent_heat_vaporization with _ | lh <;> rfl

lemma updateVapor_temperature_history :
    s.updateVapor.temperature_history = s.temperature_history := by
  unfold HeatSolver.updateVapor
  rcases s.params.material.vaporization_point with _ | vp <;>
    rcases s.params.material.latent_heat_vaporization with _ | lh <;> rfl

lemma updateVapor_melt_fraction : s.updateVapor.melt_fraction = s.melt_fraction := by
  unfold HeatSolver.updateVapor
  rcases s.params.material.vaporization_point with _ | vp <;>
    rcases s.params.material.latent_heat_vaporization with _ | lh <;> rfl

lemma updatePhaseCore_params : s.updatePhaseCore.params = s.params := by
  unfold HeatSolver.updatePhaseCore
  split
  · rw [updateVapor_params, updateMelt_params]
  · rfl

lemma updatePhaseCore_mesh : s.updatePhaseCore.mesh = s.mesh := by
  unfold HeatSolver.updatePhaseCore
  split
  · rw [updateVapor_mesh, updateMelt_mesh]
  · rfl

lemma updatePhaseCore_temperature : s.updatePhaseCore.temperature = s.temperature := by
  unfold HeatSolver.updatePhaseCore
  split
  · rw [updateVapor_temperature, updateMelt_temperature]
  · rfl

lemma updatePhaseCore_temperature_history :
    s.updatePhaseCore.temperature_history = s.temperature_history := by
  unfold HeatSolver.updatePhaseCore
  split
  · rw [updateVapor_temperature_history, updateMelt_temperature_history]
  · rfl

lemma advance_params : (HeatSolver.advance phys s step).params = s.params := by
  unfold HeatSolver.advance
  dsimp only
  split
  · rw [updatePhaseCore_params, solveStepCore_params]
  · rfl

lemma advance_mesh : (HeatSolver.advance phys s step).mesh = s.mesh := by
  unfold HeatSolver.advance
  dsimp only
  split
  · rw [updatePhaseCore_mesh, solveStepCore_mesh]
  · rfl

lemma advance_temperature_history :
    (HeatSolver.advance phys s step).temperature_history = s.temperature_history := by
  unfold HeatSolver.advance
  dsimp only
  split
  · rw [updatePhaseCore_temperature_history, solveStepCore_temperature_history]
  · rfl

lemma writeHistories_params : (s.writeHistories step).params = s.params := by
  unfold HeatSolver.writeHistories
  dsimp only
  split
  · split <;> rfl
  · split <;> rfl

lemma writeHistories_mesh : (s.writeHistories step).mesh = s.mesh := by
  unfold HeatSolver.writeHistories
  dsimp only
  split
  · split <;> rfl
  · split <;> rfl

lemma writeHistories_temperature : (s.writeHistories step).temperature = s.temperature := by
  unfold HeatSolver.writeHistories
  dsimp only
  split
  · split <;> rfl
  · split <;> rfl

lemma writeHistories_melt_fraction :
    (s.writeHistories step).melt_fraction = s.melt_fraction := by
  unfold HeatSolver.writeHistories
  dsimp only
  split
  · split <;> rfl
  · split <;> rfl

lemma writeHistories_vapor_fraction :
    (s.writeHistories step).vapor_fraction = s.vapor_fraction := by
  unfold HeatSolver.writeHistories
  dsimp only
  split
  · split <;> rfl
  · split <;> rfl

lemma writeHistories_energy :
    (s.writeHistories step).total_phase_change_energy = s.total_phase_change_energy := by
  unfold HeatSolver.writeHistories
  dsimp only
  split
  · split <;> rfl
  · split <;> rfl

lemma writeHistories_temperature_history :
    (s.writeHistories step).temperature_history =
      s.temperature_history.assignSlice (step + 1) s.temperature := by
  unfold HeatSolver.writeHistories
  dsimp only
  split
  · split <;> rfl
  · split <;> rfl

lemma stepCore_params : (HeatSolver.stepCore phys s step).params = s.params := by
  unfold HeatSolver.stepCore
  rw [writeHistories_params, advance_params]

lemma stepCore_mesh : (HeatSolver.stepCore phys s step).mesh = s.mesh := by
  unfold HeatSolver.stepCore
  rw [writeHistories_mesh, advance_mesh]

lemma runN_params (n : ℕ) : (HeatSolver.runN phys s n).params = s.params := by
  induction n with
  | zero => rfl
  | succ n ih => rw [HeatSolver.runN, stepCore_params, ih]

lemma runN_mesh (n : ℕ) : (HeatSolver.runN phys s n).mesh = s.mesh := by
  induction n with
  | zero => rfl
  | succ n ih => rw [HeatSolver.runN, stepCore_mesh, ih]

lemma assignSlice_dim2 (arr : Array3) (k : ℕ) (v : ℕ → ℕ → ℚ) :
    (arr.assignSlice k v).dim2 = arr.dim2 := rfl

lemma stepCore_history_dim2 :
    (HeatSolver.stepCore phys s step).temperature_history.dim2 =
      s.temperature_history.dim2 := by
  unfold HeatSolver.stepCore
  rw [writeHistories_temperature_history, assignSlice_dim2, advance_temperature_history]

lemma runN_history_dim2 (n : ℕ) :
    (HeatSolver.runN phys s n).temperature_history.dim2 = s.temperature_history.dim2 := by
  induction n with
  | zero => rfl
  | succ n ih => rw [HeatSolver.runN, stepCore_history_dim2, ih]

end PreservationLemmas

lemma new_ok_iff (params : SimulationParameters) (s : HeatSolver) :
    HeatSolver.new params = Except.ok s ↔
      params.validate = Except.ok () ∧ s = HeatSolver.newCore params := by
  unfold HeatSolver.new
  rcases hv : params.validate with e | u
  · simp
  · cases u
    constructor
    · intro h
      exact ⟨rfl, (Except.ok.injEq _ _ ▸ h.symm).symm ▸ rfl⟩
    · rintro ⟨-, rfl⟩
      rfl

lemma newCore_history_dim2 (params : SimulationParameters) :
    (HeatSolver.newCore params).temperature_history.dim2 = params.time_steps + 1 := rfl

lemma newCore_params (params : SimulationParameters) :
    (HeatSolver.newCore params).params = params := rfl

lemma run_ok (phys : PhysicsModel) (s : HeatSolver) :
    ∃ results, HeatSolver.run phys s = Except.ok results := ⟨_, rfl⟩

lemma run_results (phys : PhysicsModel) (s : HeatSolver) (results : SimulationResults)
    (h : HeatSolver.run phys s = Except.ok results) :
    results.temperature = (HeatSolver.runN phys s s.params.time_steps).temperature_history ∧
      results.parameters = (HeatSolver.runN phys s s.params.time_steps).params := by
  unfold HeatSolver.run at h
  cases h
  exact ⟨rfl, rfl⟩

/-- C4 (counterexample): `start()` called on a `Paused` state returns
`Ok` and moves the status to `Running`, while the claim says any status
other than `NotStarted` is rejected with the state unchanged. -/
theorem start_from_paused_succeeds_cex :
    examplePausedState.status = SimulationStatus.Paused ∧
      (examplePausedState.start).2 = Except.ok () ∧
      (examplePausedState.start).1.status = SimulationStatus.Running :=
  ⟨rfl, rfl, rfl⟩

/-- C4 (amended): `start()` rejects exactly the `Running` status,
leaving the state unchanged there; from every other status (including
`Paused`, `Completed` and `Failed`) it succeeds, sets `Running`, zeroes
the progress, clears the error message and records the start time. -/
theorem start_guards_exactly_running (s : SimulationState) :
    (s.status = SimulationStatus.Running →
      s.start = (s, Except.error "Simulação já está em execução")) ∧
    (s.status ≠ SimulationStatus.Running →
      s.start =
        ({ s with
            status := SimulationStatus.Running
            progress := 0
            error_message := none
            start_time := some () }, Except.ok ())) := by
  constructor <;> intro h <;> simp [SimulationState.start, h]

/-- C4 (witness): the amended characterisation applied to the concrete
paused state. -/
theorem start_guards_exactly_running_witness :
    (examplePausedState.start).2 = Except.ok () ∧
      (examplePausedState.start).1.progress = 0 := by
  have h := (start_guards_exactly_running examplePausedState).2 (by decide)
  rw [h]
  exact ⟨rfl, rfl⟩

/-- C5 (counterexample): `complete` invoked on a state already observed
in the terminal status `Failed` switches it to `Completed`, so terminal
statuses are not absorbing. -/
theorem complete_changes_failed_status_cex :
    exampleFailedState.status = SimulationStatus.Failed ∧
      (exampleFailedState.complete emptyResults).status = SimulationStatus.Completed :=
  ⟨rfl, rfl⟩

/-- C5 (amended): the source state machine has no absorbing terminal
statuses (and no `Cancelled` status at all): `complete` and `fail` set
their status unconditionally from any state — not only from `Running` —
and `start` succeeds from `Completed` and `Failed`, moving them back to
`Running`. -/
theorem terminal_states_not_absorbing (s : SimulationState) (r : SimulationResults)
    (m : String) :
    (s.complete r).status = SimulationStatus.Completed ∧
    (s.fail m).status = SimulationStatus.Failed ∧
    (s.status = SimulationStatus.Completed ∨ s.status = SimulationStatus.Failed →
      (s.start).2 = Except.ok () ∧ (s.start).1.status = SimulationStatus.Running) := by
  refine ⟨rfl, rfl, fun h => ?_⟩
  have hne : s.status ≠ SimulationStatus.Running := by
    rcases h with h | h <;> simp [h]
  simp [SimulationState.start, hne]

/-- C5 (witness): the amended statement at a concrete `Completed`
state. -/
theorem terminal_states_not_absorbing_witness :
    (exampleCompletedStateA.fail "boom").status = SimulationStatus.Failed ∧
      (exampleCompletedStateA.start).2 = Except.ok () := by
  have h := terminal_states_not_absorbing exampleCompletedStateA emptyResults "boom"
  exact ⟨h.2.1, (h.2.2 (Or.inl rfl)).1⟩

/-- C2: whenever the solver constructs (that is, for every validated
parameter set), the worker body completes the simulation: the run loop
has no failure path, no finiteness check exists, and in particular the
status `Failed` with message "numerical instability at step n" is never
produced — the stored error message is left untouched. -/
theorem worker_always_completes (phys : PhysicsModel) (params : SimulationParameters)
    (st : SimulationState) (s0 : HeatSolver)
    (h : HeatSolver.new params = Except.ok s0) :
    (workerBody phys params st).status = SimulationStatus.Completed ∧
      (workerBody phys params st).error_message = st.error_message := by
  unfold workerBody
  rw [h]
  dsimp only
  obtain ⟨results, hr⟩ := run_ok phys s0
  rw [hr]
  exact ⟨rfl, rfl⟩

/-- C2 (witness): the concrete base parameter set runs to `Completed`. -/
theorem worker_always_completes_witness :
    (workerBody trivialPhysics baseParams (SimulationState.new baseParams)).status =
      SimulationStatus.Completed :=
  (worker_always_completes trivialPhysics baseParams (SimulationState.new baseParams)
    exampleSolverBase rfl).1

/-- C10: `remove_torch(id)` keeps the surviving torches in order (a
sublist of the original), keeps exactly the torches whose id differs
from the argument, changes no other parameter field, and returns `true`
exactly when some torch carried the id. -/
theorem remove_torch_spec (p : SimulationParameters) (torch_id : String) :
    ((p.remove_torch torch_id).1.torches.Sublist p.torches) ∧
    (∀ t, t ∈ (p.remove_torch torch_id).1.torches ↔ t ∈ p.torches ∧ t.id ≠ torch_id) ∧
    (p.remove_torch torch_id).1.height = p.height ∧
    (p.remove_torch torch_id).1.radius = p.radius ∧
    (p.remove_torch torch_id).1.nr = p.nr ∧
    (p.remove_torch torch_id).1.nz = p.nz ∧
    (p.remove_torch torch_id).1.ntheta = p.ntheta ∧
    (p.remove_torch torch_id).1.material = p.material ∧
    (p.remove_torch torch_id).1.material_zones = p.material_zones ∧
    (p.remove_torch torch_id).1.initial_temperature = p.initial_temperature ∧
    (p.remove_torch torch_id).1.ambient_temperature = p.ambient_temperature ∧
    (p.remove_torch torch_id).1.convection_coefficient = p.convection_coefficient ∧
    (p.remove_torch torch_id).1.enable_convection = p.enable_convection ∧
    (p.remove_torch torch_id).1.enable_radiation = p.enable_radiation ∧
    (p.remove_torch torch_id).1.enable_phase_changes = p.enable_phase_changes ∧
    (p.remove_torch torch_id).1.total_time = p.total_time ∧
    (p.remove_torch torch_id).1.time_step = p.time_step ∧
    (p.remove_torch torch_id).1.time_steps = p.time_steps ∧
    (p.remove_torch torch_id).1.zone_map = p.zone_map ∧
    ((p.remove_torch torch_id).2 = true ↔ ∃ t ∈ p.torches, t.id = torch_id) := by
  unfold SimulationParameters.remove_torch
  refine ⟨List.filter_sublist _, fun t => ?_, rfl, rfl, rfl, rfl, rfl, rfl, rfl, rfl, rfl,
    rfl, rfl, rfl, rfl, rfl, rfl, rfl, rfl, ?_⟩
  · simp [List.mem_filter]
  · rw [decide_eq_true_iff]
    constructor
    · intro h
      by_contra hno
      push_neg at hno
      have : p.torches.filter (fun t => t.id ≠ torch_id) = p.torches := by
        apply List.filter_eq_self.mpr
        intro t ht
        simpa using hno t ht
      rw [this] at h
      exact lt_irrefl _ h
    · rintro ⟨t, ht, hid⟩
      apply List.length_filter_lt_length_iff_exists.mpr
      exact ⟨t, ht, by simp [hid]⟩

/-- C6: one solver time step computes, for every in-grid cell, exactly
the update `T + Δt·(radial stencil + axial stencil + Q)/(ρ·cₚ_eff)` of
the specification, with the material properties evaluated at the
previous-step temperature; the right-hand side reads only the
previous-step field `s.temperature`. -/
theorem solve_time_step_formula (s : HeatSolver) (sources : HeatSources) (s2 : HeatSolver)
    (i j : ℕ) (hs : s.solve_time_step sources = Except.ok s2)
    (hi : i < s.params.nr) (hj : j < s.params.nz) :
    s2.temperature i j = specUpdateFormula s sources i j := by
  unfold HeatSolver.solve_time_step at hs
  cases hs
  show (s.solveStepCore sources).temperature i j = _
  unfold HeatSolver.solveStepCore
  dsimp only
  rw [if_pos ⟨hi, hj⟩]
  simp only [HeatSolver.updateCell, specUpdateFormula, specRadialStencil, specAxialStencil]
  split_ifs <;> subst_vars <;> (try simp only [Nat.zero_add]) <;> ring

/-- C6 (witness): the stencil identity at the interior cell (1,1) of a
concrete 3×3 solver state with non-zero sources. -/
theorem solve_time_step_formula_witness :
    1 < exampleSolver6.params.nr ∧ 1 < exampleSolver6.params.nz ∧
      (exampleSolver6.solveStepCore exampleSources6).temperature 1 1 =
        specUpdateFormula exampleSolver6 exampleSources6 1 1 :=
  ⟨by decide, by decide,
    solve_time_step_formula exampleSolver6 exampleSources6 _ 1 1 rfl (by decide) (by decide)⟩

lemma calculate_sources_zero (phys : PhysicsModel) (s : HeatSolver)
    (h1 : s.params.enable_radiation = false) (h2 : s.params.enable_convection = false) :
    ∀ i j, (HeatSolver.calculate_sources phys s).total i j = 0 := by
  intro i j
  simp [HeatSolver.calculate_sources, HeatSources.total, HeatSources.new, h1, h2]

lemma updateCell_uniform (s : HeatSolver) (sources : HeatSources) (T0 : ℚ)
    (ht : ∀ i j, s.temperature i j = T0)
    (hamb : s.params.ambient_temperature = T0)
    (hsrc : ∀ i j, sources.total i j = 0) (i j : ℕ) :
    s.updateCell sources i j = T0 := by
  simp only [HeatSolver.updateCell, ht, hamb, hsrc]
  split_ifs <;> ring

lemma solveStepCore_uniform (s : HeatSolver) (sources : HeatSources) (T0 : ℚ)
    (ht : ∀ i j, s.temperature i j = T0)
    (hamb : s.params.ambient_temperature = T0)
    (hsrc : ∀ i j, sources.total i j = 0) :
    ∀ i j, (s.solveStepCore sources).temperature i j = T0 := by
  intro i j
  unfold HeatSolver.solveStepCore
  dsimp only
  split
  · exact updateCell_uniform s sources T0 ht hamb hsrc i j
  · exact ht i j

lemma advance_uniform (phys : PhysicsModel) (s : HeatSolver) (step : ℕ) (T0 : ℚ)
    (ht : ∀ i j, s.temperature i j = T0)
    (hamb : s.params.ambient_temperature = T0)
    (hrad : s.params.enable_radiation = false)
    (hconv : s.params.enable_convection = false) :
    ∀ i j, (HeatSolver.advance phys s step).temperature i j = T0 := by
  intro i j
  unfold HeatSolver.advance
  dsimp only
  split
  · rw [updatePhaseCore_temperature]
    exact solveStepCore_uniform _ _ T0 ht hamb (calculate_sources_zero phys _ hrad hconv) i j
  · exact solveStepCore_uniform _ _ T0 ht hamb (calculate_sources_zero phys _ hrad hconv) i j

lemma stepCore_uniform_temperature (phys : PhysicsModel) (s : HeatSolver) (step : ℕ) (T0 : ℚ)
    (ht : ∀ i j, s.temperature i j = T0)
    (hamb : s.params.ambient_temperature = T0)
    (hrad : s.params.enable_radiation = false)
    (hconv : s.params.enable_convection = false) :
    ∀ i j, (HeatSolver.stepCore phys s step).temperature i j = T0 := by
  intro i j
  unfold HeatSolver.stepCore
  rw [writeHistories_temperature]
  exact advance_uniform phys s step T0 ht hamb hrad hconv i j

lemma stepCore_history_data (phys : PhysicsModel) (s : HeatSolver) (step : ℕ) (i j k : ℕ) :
    (HeatSolver.stepCore phys s step).temperature_history.data i j k =
      if k = step + 1 then (HeatSolver.advance phys s step).temperature i j
      else s.temperature_history.data i j k := by
  unfold HeatSolver.stepCore
  rw [writeHistories_temperature_history, advance_temperature_history]
  rfl

/-- C8 (amended): with radiation and convection disabled and the
ambient temperature equal to the uniform initial temperature, the
temperature of every cell and of every written history slice stays
exactly `T₀` at every step, hence within the symmetric band
`[T₀ − |T₀|·1e-9, T₀ + |T₀|·1e-9]`. -/
theorem zero_source_constant_temperature (phys : PhysicsModel)
    (params : SimulationParameters) (s0 : HeatSolver)
    (hnew : HeatSolver.new params = Except.ok s0)
    (hrad : params.enable_radiation = false)
    (hconv : params.enable_convection = false)
    (hamb : params.ambient_temperature = params.initial_temperature) :
    ∀ n,
      (∀ i j, (HeatSolver.runN phys s0 n).temperature i j = params.initial_temperature) ∧
      (∀ k, k ≤ n → ∀ i j,
        (HeatSolver.runN phys s0 n).temperature_history.data i j k =
          params.initial_temperature) ∧
      (∀ i j,
        params.initial_temperature - |params.initial_temperature| / 1000000000 ≤
            (HeatSolver.runN phys s0 n).temperature i j ∧
          (HeatSolver.runN phys s0 n).temperature i j ≤
            params.initial_temperature + |params.initial_temperature| / 1000000000) := by
  obtain ⟨-, rfl⟩ := (new_ok_iff params s0).mp hnew
  have key : ∀ n,
      (∀ i j, (HeatSolver.runN phys (HeatSolver.newCore params) n).temperature i j =
        params.initial_temperature) ∧
      (∀ k, k ≤ n → ∀ i j,
        (HeatSolver.runN phys (HeatSolver.newCore params) n).temperature_history.data i j k =
          params.initial_temperature) := by
    intro n
    induction n with
    | zero =>
      constructor
      · intro i j; rfl
      · intro k hk i j
        interval_cases k
        rfl
    | succ n ih =>
      have hparams := runN_params phys (HeatSolver.newCore params) n
      have hamb2 : (HeatSolver.runN phys (HeatSolver.newCore params) n).params.ambient_temperature
          = params.initial_temperature := by rw [hparams, newCore_params, hamb]
      have hrad2 : (HeatSolver.runN phys (HeatSolver.newCore params) n).params.enable_radiation
          = false := by rw [hparams, newCore_params, hrad]
      have hconv2 : (HeatSolver.runN phys (HeatSolver.newCore params) n).params.enable_convection
          = false := by rw [hparams, newCore_params, hconv]
      constructor
      · intro i j
        exact stepCore_uniform_temperature phys _ n params.initial_temperature ih.1 hamb2
          hrad2 hconv2 i j
      · intro k hk i j
        rw [HeatSolver.runN, stepCore_history_data]
        by_cases hkn : k = n + 1
        · rw [if_pos hkn]
          exact advance_uniform phys _ n params.initial_temperature ih.1 hamb2 hrad2 hconv2 i j
        · rw [if_neg hkn]
          exact ih.2 k (by omega) i j
  intro n
  refine ⟨(key n).1, (key n).2, fun i j => ?_⟩
  rw [(key n).1 i j]
  constructor
  · have := abs_nonneg params.initial_temperature
    have h9 : (0 : ℚ) ≤ |params.initial_temperature| / 1000000000 := by positivity
    linarith
  · have h9 : (0 : ℚ) ≤ |params.initial_temperature| / 1000000000 := by positivity
    linarith

/-- C8 (counterexample): a valid source-free parameter set with the
negative initial temperature −1 °C keeps the field exactly at T₀ after
a full step, yet T₀ itself lies outside the claimed band
`[T₀ − tol, T₀ + tol]` because `tol = 1e-9·T₀` is negative. -/
theorem zero_source_tolerance_sign_cex :
    cex8Params.validate.isOk = true ∧
      cex8Params.enable_radiation = false ∧
      cex8Params.enable_convection = false ∧
      cex8Params.ambient_temperature = cex8Params.initial_temperature ∧
      (HeatSolver.runN trivialPhysics (HeatSolver.newCore cex8Params) 1).temperature 0 0 =
        cex8Params.initial_temperature ∧
      ¬ (cex8Params.initial_temperature -
            (1 / 1000000000) * cex8Params.initial_temperature ≤
              cex8Params.initial_temperature ∧
          cex8Params.initial_temperature ≤
            cex8Params.initial_temperature +
              (1 / 1000000000) * cex8Params.initial_temperature) := by
  refine ⟨by decide, by decide, by decide, by decide, ?_, ?_⟩
  · show (HeatSolver.stepCore trivialPhysics
      (HeatSolver.runN trivialPhysics (HeatSolver.newCore cex8Params) 0) 0).temperature 0 0 = _
    exact stepCore_uniform_temperature trivialPhysics _ 0 cex8Params.initial_temperature
      (fun i j => rfl) rfl rfl rfl 0 0
  · intro h
    have h2 := h.2
    norm_num [cex8Params, baseParams] at h2

/-- C8 (witness): the amended statement at the concrete base
parameters after one step. -/
theorem zero_source_constant_temperature_witness :
    (HeatSolver.runN trivialPhysics exampleSolverBase 1).temperature 0 0 =
        baseParams.initial_temperature ∧
      (HeatSolver.runN trivialPhysics exampleSolverBase 1).temperature_history.data 0 0 1 =
        baseParams.initial_temperature := by
  have h := zero_source_constant_temperature trivialPhysics baseParams exampleSolverBase
    rfl rfl rfl rfl 1
  exact ⟨h.1 0 0, h.2.1 1 (le_refl 1) 0 0⟩

lemma updateMelt_no_melting_point (s : HeatSolver)
    (h : s.params.material.melting_point = none) : s.updateMelt = s := by
  unfold HeatSolver.updateMelt
  rw [h]

lemma vaporAt_writeHistories (s : HeatSolver) (step i j : ℕ) :
    (s.writeHistories step).vaporAt i j = s.vaporAt i j := by
  unfold HeatSolver.vaporAt
  rw [writeHistories_vapor_fraction]

lemma vaporAt_solveStepCore (s : HeatSolver) (sources : HeatSources) (i j : ℕ) :
    (s.solveStepCore sources).vaporAt i j = s.vaporAt i j := rfl

lemma updateVapor_zero_melt (s : HeatSolver) (tv lv : ℚ)
    (hvp : s.params.material.vaporization_point = some tv)
    (hlv : s.params.material.latent_heat_vaporization = some lv)
    (mf : ℕ → ℕ → ℚ) (hm : s.melt_fraction = some mf) (hmz : ∀ i j, mf i j = 0) :
    ∀ i j, s.updateVapor.vaporAt i j = s.vaporAt i j := by
  intro i j
  unfold HeatSolver.updateVapor HeatSolver.vaporAt
  rw [hvp, hlv]
  dsimp only
  rw [hm]
  simp only [hmz, Option.getD_some, ge_iff_le, decide_eq_true_eq]
  split_ifs <;> first
    | rfl
    | linarith

/-- C3: in every run whose material has a vaporization point and latent
heat but no melting point, the vapor fraction of every cell stays 0 at
every step — the constructor allocates an all-zero melt-fraction array
whenever the vaporization point is set, so the "fully melted" guard
`χ_m ≥ 1` is never satisfied and the claimed vapor-fraction growth
never occurs, however far above `T_v` the cell is. -/
theorem vapor_never_grows_without_melting_point (phys : PhysicsModel)
    (params : SimulationParameters) (s0 : HeatSolver) (tv lv : ℚ)
    (hnew : HeatSolver.new params = Except.ok s0)
    (hen : params.enable_phase_changes = true)
    (hmp : params.material.melting_point = none)
    (hvp : params.material.vaporization_point = some tv)
    (hlv : params.material.latent_heat_vaporization = some lv) :
    ∀ n i j, (HeatSolver.runN phys s0 n).vaporAt i j = 0 := by
  obtain ⟨-, rfl⟩ := (new_ok_iff params s0).mp hnew
  have key : ∀ n,
      (HeatSolver.runN phys (HeatSolver.newCore params) n).melt_fraction =
          some (fun _ _ => (0 : ℚ)) ∧
        ∀ i j, (HeatSolver.runN phys (HeatSolver.newCore params) n).vaporAt i j = 0 := by
    intro n
    induction n with
    | zero =>
      constructor
      · show (HeatSolver.newCore params).melt_fraction = _
        unfold HeatSolver.newCore
        simp [hen, hvp]
      · intro i j
        show (HeatSolver.newCore params).vaporAt i j = 0
        unfold HeatSolver.newCore HeatSolver.vaporAt
        simp [hen, hvp]
    | succ n ih =>
      set sn := HeatSolver.runN phys (HeatSolver.newCore params) n with hsn
      have hparams : sn.params = params := by
        rw [hsn, runN_params, newCore_params]
      have hstep : HeatSolver.runN phys (HeatSolver.newCore params) (n + 1) =
          (HeatSolver.advance phys sn n).writeHistories n := rfl
      set s1 := ({ sn with current_step := n }).solveStepCore
        (HeatSolver.calculate_sources phys { sn with current_step := n }) with hs1
      have hs1params : s1.params = params := by
        rw [hs1, solveStepCore_params]
        exact hparams
      have hs1en : s1.params.enable_phase_changes = true := by
        rw [hs1params]
        exact hen
      have hadv : HeatSolver.advance phys sn n = s1.updateMelt.updateVapor := by
        unfold HeatSolver.advance
        dsimp only
        rw [← hs1, if_pos hs1en]
        unfold HeatSolver.updatePhaseCore
        rw [if_pos hs1en]
      have hs1melt : s1.melt_fraction = some (fun _ _ => (0 : ℚ)) := by
        rw [hs1, solveStepCore_melt_fraction]
        exact ih.1
      have hmelt1 : s1.updateMelt = s1 :=
        updateMelt_no_melting_point s1 (by rw [hs1params]; exact hmp)
      constructor
      · rw [hstep, writeHistories_melt_fraction, hadv, hmelt1, updateVapor_melt_fraction,
          hs1melt]
      · intro i j
        rw [hstep, vaporAt_writeHistories, hadv, hmelt1,
          updateVapor_zero_melt s1 tv lv (by rw [hs1params]; exact hvp)
            (by rw [hs1params]; exact hlv) _ hs1melt (fun _ _ => rfl) i j]
        rw [hs1, vaporAt_solveStepCore]
        exact ih.2 i j
  intro n i j
  exact (key n).2 i j

/-- C3 (witness): a concrete run above the vaporization point with no
melting point set — the cell temperature stays at 200 °C, strictly
above `T_v = 100`, the vapor fraction is below 1, and yet it remains
exactly 0 after a full step, exhibiting the failing input of the
claim. -/
theorem vapor_never_grows_without_melting_point_witness :
    (HeatSolver.runN trivialPhysics exampleSolver3 1).vaporAt 0 0 = 0 ∧
      (HeatSolver.runN trivialPhysics exampleSolver3 1).temperature 0 0 = 200 ∧
      ((200 : ℚ) > 100) ∧
      cex3Params.material.melting_point = none ∧
      cex3Params.material.vaporization_point = some 100 := by
  refine ⟨vapor_never_grows_without_melting_point trivialPhysics cex3Params exampleSolver3
      100 1000 rfl rfl rfl rfl rfl 1 0 0, ?_, by decide, by decide, by decide⟩
  show (HeatSolver.stepCore trivialPhysics
    (HeatSolver.runN trivialPhysics exampleSolver3 0) 0).temperature 0 0 = _
  exact stepCore_uniform_temperature trivialPhysics _ 0 200 (fun i j => rfl) rfl rfl rfl 0 0

/-- C1: for every state holding the results of an actual completed run,
`get_temperature_data` returns the error code −9 for every requested
step and every buffer capacity, writing nothing — never the claimed
`Nr·Nz` element count — because the run history carries
`time_steps + 1` slices while the boundary check demands exactly
`time_steps`. -/
theorem get_temperature_data_always_dim_mismatch (phys : PhysicsModel)
    (params : SimulationParameters) (s0 : HeatSolver) (results : SimulationResults)
    (st : SimulationState) (step : ℤ) (cap : ℕ)
    (hnew : HeatSolver.new params = Except.ok s0)
    (hrun : HeatSolver.run phys s0 = Except.ok results)
    (hres : st.results = some results)
    (hst : st.status = SimulationStatus.Completed)
    (hpar : st.parameters.time_steps = params.time_steps) :
    get_temperature_data st step cap = (-9, []) := by
  obtain ⟨-, rfl⟩ := (new_ok_iff params s0).mp hnew
  obtain ⟨htemp, -⟩ := run_results phys _ results hrun
  have hdim : results.temperature.dim2 = params.time_steps + 1 := by
    rw [htemp, runN_history_dim2, newCore_history_dim2]
  have hic : st.is_completed = true := by
    simp [SimulationState.is_completed, hst]
  have hne : st.parameters.time_steps ≠ results.temperature.dim2 := by
    rw [hdim, hpar]
    omega
  unfold get_temperature_data
  rw [hres]
  simp only [hic, Bool.not_eq_true, Option.isNone_some, or_self, if_false,
    Bool.false_eq_true, false_or]
  rw [if_neg (by simp), if_pos hne]

/-- C1 (witness): the completed base-parameter run (Nr = Nz = 2, one
time step, buffer capacity 4 = Nr·Nz, step 0) yields −9 and an empty
buffer instead of the claimed 4 values of T₀. -/
theorem get_temperature_data_always_dim_mismatch_witness :
    get_temperature_data exampleCompletedRunState 0 4 = (-9, []) :=
  get_temperature_data_always_dim_mismatch trivialPhysics baseParams exampleSolverBase
    exampleResultsBase exampleCompletedRunState 0 4 rfl rfl rfl rfl rfl

lemma validateTorchPositions_ok_iff (radius height : ℚ) (ts : List PlasmaTorch) :
    validateTorchPositions radius height ts = Except.ok () ↔
      ∀ t ∈ ts, 0 ≤ t.r_position ∧ t.r_position ≤ radius ∧
        0 ≤ t.z_position ∧ t.z_position ≤ height := by
  induction ts with
  | nil => simp [validateTorchPositions]
  | cons t ts ih =>
    simp only [validateTorchPositions, List.forall_mem_cons]
    by_cases h1 : t.r_position < 0 ∨ t.r_position > radius
    · rw [if_pos h1]
      constructor
      · intro h
        exact absurd h (by simp)
      · rintro ⟨⟨hr0, hrR, -, -⟩, -⟩
        rcases h1 with h | h <;> linarith
    · rw [if_neg h1]
      by_cases h2 : t.z_position < 0 ∨ t.z_position > height
      · rw [if_pos h2]
        constructor
        · intro h
          exact absurd h (by simp)
        · rintro ⟨⟨-, -, hz0, hzH⟩, -⟩
          rcases h2 with h | h <;> linarith
      · rw [if_neg h2]
        push_neg at h1 h2
        rw [ih]
        constructor
        · intro h
          exact ⟨⟨h1.1, h1.2, h2.1, h2.2⟩, h⟩
        · rintro ⟨-, h⟩
          exact h

lemma validateTorchIds_ok_iff (seen : List String) (ts : List PlasmaTorch) :
    validateTorchIds seen ts = Except.ok () ↔
      (ts.map PlasmaTorch.id).Nodup ∧ ∀ x ∈ ts.map PlasmaTorch.id, x ∉ seen := by
  induction ts generalizing seen with
  | nil => simp [validateTorchIds]
  | cons t ts ih =>
    simp only [validateTorchIds, List.map_cons, List.nodup_cons]
    by_cases h : t.id ∈ seen
    · rw [if_pos h]
      constructor
      · intro hh
        exact absurd hh (by simp)
      · rintro ⟨-, hall⟩
        exact absurd h (hall t.id (List.mem_cons_self _ _))
    · rw [if_neg h]
      rw [ih]
      constructor
      · rintro ⟨hnd, hall⟩
        refine ⟨⟨fun hmem => (hall t.id hmem) (List.mem_cons_self _ _), hnd⟩, ?_⟩
        intro x hx
        rcases List.mem_cons.mp hx with rfl | hx2
        · exact h
        · exact fun hxs => (hall x hx2) (List.mem_cons_of_mem _ hxs)
      · rintro ⟨⟨hnotin, hnd⟩, hall⟩
        refine ⟨hnd, fun x hx hxc => ?_⟩
        rcases List.mem_cons.mp hxc with rfl | hxs
        · exact hnotin hx
        · exact (hall x (List.mem_cons_of_mem _ hx)) hxs

/-- C9 (amended): `validate` succeeds exactly when all the claimed
conditions hold together with one clause the claim omits: when a zone
map is present without material zones, every zone entry must be zero.
(Validation is a pure function of the parameters and mutates nothing.) -/
theorem validate_ok_iff (p : SimulationParameters) :
    p.validate = Except.ok () ↔
      (0 < p.height ∧ 0 < p.radius ∧ 2 ≤ p.nr ∧ 2 ≤ p.nz ∧ 4 ≤ p.ntheta ∧
        p.torches ≠ [] ∧ 0 < p.time_step ∧ 0 < p.total_time ∧
        (∀ t ∈ p.torches, 0 ≤ t.r_position ∧ t.r_position ≤ p.radius ∧
          0 ≤ t.z_position ∧ t.z_position ≤ p.height) ∧
        (p.torches.map PlasmaTorch.id).Nodup ∧
        validateZoneCond p) := by
  constructor
  · intro h
    unfold SimulationParameters.validate at h
    split_ifs at h with h1 h2 h3 h4 h5 h6 h7 h8
    rcases hpos : validateTorchPositions p.radius p.height p.torches with e | u
    · rw [hpos] at h
      simp at h
    · cases u
      rw [hpos] at h
      rcases hids : validateTorchIds [] p.torches with e | u
      · rw [hids] at h
        simp at h
      · cases u
        rw [hids] at h
        refine ⟨not_le.mp h1, not_le.mp h2, not_lt.mp h3, not_lt.mp h4, not_lt.mp h5,
          by simpa [List.isEmpty_iff] using h6, not_le.mp h7, not_le.mp h8,
          (validateTorchPositions_ok_iff _ _ _).mp hpos,
          ((validateTorchIds_ok_iff [] p.torches).mp hids).1, ?_⟩
        unfold validateZoneCond
        rcases hzm : p.zone_map with _ | zm
        · trivial
        · rw [hzm] at h
          rcases hmz : p.material_zones with _ | mz
          · rw [hmz] at h
            dsimp only at h ⊢
            by_cases hap : zoneMapAnyPos zm = true
            · rw [if_pos hap] at h
              simp at h
            · simpa using hap
          · rw [hmz] at h
            dsimp only at h ⊢
            by_cases hle : mz.length ≤ zoneMapMax zm
            · rw [if_pos hle] at h
              simp at h
            · exact not_le.mp hle
  · rintro ⟨hh, hr, hnr, hnz, hnt, hne, hdt, htt, hposs, hnd, hzone⟩
    unfold SimulationParameters.validate
    rw [if_neg (not_le.mpr hh), if_neg (not_le.mpr hr), if_neg (by omega), if_neg (by omega),
      if_neg (by omega), if_neg (by simpa [List.isEmpty_iff] using hne),
      if_neg (not_le.mpr hdt), if_neg (not_le.mpr htt),
      (validateTorchPositions_ok_iff _ _ _).mpr hposs,
      (validateTorchIds_ok_iff [] p.torches).mpr ⟨hnd, by simp⟩]
    unfold validateZoneCond at hzone
    rcases hzm : p.zone_map with _ | zm
    · rfl
    · dsimp only
      rcases hmz : p.material_zones with _ | mz
      · rw [hzm, hmz] at hzone
        dsimp only at hzone ⊢
        rw [if_neg (by simp [hzone])]
      · rw [hzm, hmz] at hzone
        dsimp only at hzone ⊢
        rw [if_neg (not_le.mpr hzone)]

/-- C9 (counterexample): `cex9Params` satisfies every condition in the
claim list (the zone clause is vacuous because no material zones are
defined), yet `validate` returns an error, refuting the
claimed "error if and only if" characterisation. -/
theorem validate_errors_beyond_claim_cex :
    specValidCond cex9Params ∧ cex9Params.validate.isOk = false :=
  ⟨by decide, by decide⟩

lemma latent_step_bounds (c A B D : ℚ) (hc0 : 0 ≤ c) (hc1 : c ≤ 1)
    (hA : 0 < A) (hB : 0 < B) (hD : 0 < D) :
    c ≤ min (c + min A B / D) 1 ∧ min (c + min A B / D) 1 ≤ 1 ∧
      0 ≤ min (c + min A B / D) 1 := by
  have hused : 0 < min A B := lt_min hA hB
  have hq : 0 ≤ min A B / D := le_of_lt (div_pos hused hD)
  exact ⟨le_min (by linarith) hc1, min_le_right _ _, le_min (by linarith) (by norm_num)⟩

lemma meltAt_writeHistories (s : HeatSolver) (step i j : ℕ) :
    (s.writeHistories step).meltAt i j = s.meltAt i j := by
  unfold HeatSolver.meltAt
  rw [writeHistories_melt_fraction]

lemma meltAt_solveStepCore (s : HeatSolver) (sources : HeatSources) (i j : ℕ) :
    (s.solveStepCore sources).meltAt i j = s.meltAt i j := rfl

lemma meltAt_updateVapor (s : HeatSolver) (i j : ℕ) :
    s.updateVapor.meltAt i j = s.meltAt i j := by
  unfold HeatSolver.meltAt
  rw [updateVapor_melt_fraction]

lemma vaporAt_updateMelt (s : HeatSolver) (i j : ℕ) :
    s.updateMelt.vaporAt i j = s.vaporAt i j := by
  unfold HeatSolver.vaporAt
  rw [updateMelt_vapor_fraction]

lemma updateMelt_no_latent (s : HeatSolver)
    (h : s.params.material.latent_heat_fusion = none) : s.updateMelt = s := by
  unfold HeatSolver.updateMelt
  rcases hm : s.params.material.melting_point with _ | mp
  · rfl
  · rw [h]

lemma updateVapor_no_vapor_point (s : HeatSolver)
    (h : s.params.material.vaporization_point = none) : s.updateVapor = s := by
  unfold HeatSolver.updateVapor
  rw [h]

lemma updateVapor_no_latent (s : HeatSolver)
    (h : s.params.material.latent_heat_vaporization = none) : s.updateVapor = s := by
  unfold HeatSolver.updateVapor
  rcases hv : s.params.material.vaporization_point with _ | vp
  · rfl
  · rw [h]

lemma updateMelt_mono (s : HeatSolver)
    (hrho : 0 < s.params.material.density)
    (hcp : 0 < s.params.material.specific_heat)
    (hV : ∀ i, i < s.params.nr → ∀ j, j < s.params.nz → 0 < s.mesh.cell_volumes i j)
    (hLf : 0 < s.params.material.latent_heat_fusion.getD 1)
    (hb : ∀ i j, 0 ≤ s.meltAt i j ∧ s.meltAt i j ≤ 1) :
    (∀ i j, s.meltAt i j ≤ s.updateMelt.meltAt i j ∧ s.updateMelt.meltAt i j ≤ 1 ∧
      0 ≤ s.updateMelt.meltAt i j) ∧
      s.total_phase_change_energy ≤ s.updateMelt.total_phase_change_energy := by
  rcases hm : s.params.material.melting_point with _ | mp
  · rw [updateMelt_no_melting_point s hm]
    exact ⟨fun i j => ⟨le_refl _, (hb i j).2, (hb i j).1⟩, le_refl _⟩
  · rcases hl : s.params.material.latent_heat_fusion with _ | lh
    · rw [updateMelt_no_latent s hl]
      exact ⟨fun i j => ⟨le_refl _, (hb i j).2, (hb i j).1⟩, le_refl _⟩
    · have hlh : (0 : ℚ) < lh := by
        rw [hl] at hLf
        simpa using hLf
      simp only [HeatSolver.meltAt] at hb
      constructor
      · intro i j
        unfold HeatSolver.updateMelt HeatSolver.meltAt
        rw [hm, hl]
        dsimp only
        simp only [Option.getD_some]
        split_ifs with hgrid hcond
        · have hrho2 : (0 : ℚ) <
              s.params.material.get_density (s.temperature i j) := hrho
          have hcp2 : (0 : ℚ) <
              s.params.material.get_specific_heat (s.temperature i j) := hcp
          have hV2 : 0 < s.mesh.cell_volumes i j := hV i hgrid.1 j hgrid.2
          exact latent_step_bounds _ _ _ _ (hb i j).1 (hb i j).2
            (mul_pos (mul_pos (mul_pos hrho2 hV2) hcp2) (sub_pos.mpr hcond.1))
            (mul_pos (mul_pos (mul_pos hrho2 hV2) hlh) (by linarith [hcond.2]))
            (mul_pos (mul_pos hrho2 hV2) hlh)
        · exact ⟨le_refl _, (hb i j).2, (hb i j).1⟩
        · exact ⟨le_refl _, (hb i j).2, (hb i j).1⟩
      · unfold HeatSolver.updateMelt
        rw [hm, hl]
        dsimp only
        have hsum : (0 : ℚ) ≤
            ∑ i ∈ Finset.range s.params.nr, ∑ j ∈ Finset.range s.params.nz,
              (if s.temperature i j > mp ∧ (s.melt_fraction.getD (fun _ _ => 0)) i j < 1 then
                min (s.params.material.get_density (s.temperature i j) *
                      s.mesh.cell_volumes i j *
                      s.params.material.get_specific_heat (s.temperature i j) *
                      (s.temperature i j - mp))
                    (s.params.material.get_density (s.temperature i j) *
                      s.mesh.cell_volumes i j * lh *
                      (1 - (s.melt_fraction.getD (fun _ _ => 0)) i j))
              else 0) := by
          apply Finset.sum_nonneg
          intro i hi
          apply Finset.sum_nonneg
          intro j hj
          split_ifs with hcond
          · have hrho2 : (0 : ℚ) <
                s.params.material.get_density (s.temperature i j) := hrho
            have hcp2 : (0 : ℚ) <
                s.params.material.get_specific_heat (s.temperature i j) := hcp
            have hV2 : 0 < s.mesh.cell_volumes i j :=
              hV i (Finset.mem_range.mp hi) j (Finset.mem_range.mp hj)
            exact le_min
              (le_of_lt (mul_pos (mul_pos (mul_pos hrho2 hV2) hcp2)
                (sub_pos.mpr hcond.1)))
              (le_of_lt (mul_pos (mul_pos (mul_pos hrho2 hV2) hlh)
                (by linarith [(hb i j).2, hcond.2])))
          · exact le_refl 0
        linarith

lemma updateVapor_mono (s : HeatSolver)
    (hrho : 0 < s.params.material.density)
    (hcp : 0 < s.params.material.specific_heat)
    (hV : ∀ i, i < s.params.nr → ∀ j, j < s.params.nz → 0 < s.mesh.cell_volumes i j)
    (hLv : 0 < s.params.material.latent_heat_vaporization.getD 1)
    (hb : ∀ i j, 0 ≤ s.vaporAt i j ∧ s.vaporAt i j ≤ 1) :
    (∀ i j, s.vaporAt i j ≤ s.updateVapor.vaporAt i j ∧ s.updateVapor.vaporAt i j ≤ 1 ∧
      0 ≤ s.updateVapor.vaporAt i j) ∧
      s.total_phase_change_energy ≤ s.updateVapor.total_phase_change_energy := by
  rcases hm : s.params.material.vaporization_point with _ | vp
  · rw [updateVapor_no_vapor_point s hm]
    exact ⟨fun i j => ⟨le_refl _, (hb i j).2, (hb i j).1⟩, le_refl _⟩
  · rcases hl : s.params.material.latent_heat_vaporization with _ | lh
    · rw [updateVapor_no_latent s hl]
      exact ⟨fun i j => ⟨le_refl _, (hb i j).2, (hb i j).1⟩, le_refl _⟩
    · have hlh : (0 : ℚ) < lh := by
        rw [hl] at hLv
        simpa using hLv
      simp only [HeatSolver.vaporAt] at hb
      constructor
      · intro i j
        unfold HeatSolver.updateVapor HeatSolver.vaporAt
        rw [hm, hl]
        dsimp only
        simp only [Option.getD_some]
        split_ifs with hgrid hcond hfull
        · have hrho2 : (0 : ℚ) <
              s.params.material.get_density (s.temperature i j) := hrho
          have hcp2 : (0 : ℚ) <
              s.params.material.get_specific_heat (s.temperature i j) := hcp
          have hV2 : 0 < s.mesh.cell_volumes i j := hV i hgrid.1 j hgrid.2
          exact latent_step_bounds _ _ _ _ (hb i j).1 (hb i j).2
            (mul_pos (mul_pos (mul_pos hrho2 hV2) hcp2) (sub_pos.mpr hcond.1))
            (mul_pos (mul_pos (mul_pos hrho2 hV2) hlh) (by linarith [hcond.2]))
            (mul_pos (mul_pos hrho2 hV2) hlh)
        · exact ⟨le_refl _, (hb i j).2, (hb i j).1⟩
        · exact ⟨le_refl _, (hb i j).2, (hb i j).1⟩
        · exact ⟨le_refl _, (hb i j).2, (hb i j).1⟩
      · unfold HeatSolver.updateVapor
        rw [hm, hl]
        dsimp only
        have hsum : (0 : ℚ) ≤
            ∑ i ∈ Finset.range s.params.nr, ∑ j ∈ Finset.range s.params.nz,
              (if s.temperature i j > vp ∧
                  (s.vapor_fraction.getD (fun _ _ => 0)) i j < 1 then
                if (match s.melt_fraction with
                    | some mf => decide (mf i j ≥ 1)
                    | none => true) then
                  min (s.params.material.get_density (s.temperature i j) *
                        s.mesh.cell_volumes i j *
                        s.params.material.get_specific_heat (s.temperature i j) *
                        (s.temperature i j - vp))
                      (s.params.material.get_density (s.temperature i j) *
                        s.mesh.cell_volumes i j * lh *
                        (1 - (s.vapor_fraction.getD (fun _ _ => 0)) i j))
                else 0
              else 0) := by
          apply Finset.sum_nonneg
          intro i hi
          apply Finset.sum_nonneg
          intro j hj
          split_ifs with hcond hfull
          · have hrho2 : (0 : ℚ) <
                s.params.material.get_density (s.temperature i j) := hrho
            have hcp2 : (0 : ℚ) <
                s.params.material.get_specific_heat (s.temperature i j) := hcp
            have hV2 : 0 < s.mesh.cell_volumes i j :=
              hV i (Finset.mem_range.mp hi) j (Finset.mem_range.mp hj)
            exact le_min
              (le_of_lt (mul_pos (mul_pos (mul_pos hrho2 hV2) hcp2)
                (sub_pos.mpr hcond.1)))
              (le_of_lt (mul_pos (mul_pos (mul_pos hrho2 hV2) hlh)
                (by linarith [(hb i j).2, hcond.2])))
          · exact le_refl 0
          · exact le_refl 0
        linarith

lemma meltAt_newCore (params : SimulationParameters) (i j : ℕ) :
    (HeatSolver.newCore params).meltAt i j = 0 := by
  unfold HeatSolver.newCore HeatSolver.meltAt
  dsimp only
  split <;> rfl

lemma vaporAt_newCore (params : SimulationParameters) (i j : ℕ) :
    (HeatSolver.newCore params).vaporAt i j = 0 := by
  unfold HeatSolver.newCore HeatSolver.vaporAt
  dsimp only
  split <;> rfl

lemma stepCore_mono (phys : PhysicsModel) (s : HeatSolver) (n : ℕ)
    (hrho : 0 < s.params.material.density)
    (hcp : 0 < s.params.material.specific_heat)
    (hV : ∀ i, i < s.params.nr → ∀ j, j < s.params.nz → 0 < s.mesh.cell_volumes i j)
    (hLf : 0 < s.params.material.latent_heat_fusion.getD 1)
    (hLv : 0 < s.params.material.latent_heat_vaporization.getD 1)
    (hbm : ∀ i j, 0 ≤ s.meltAt i j ∧ s.meltAt i j ≤ 1)
    (hbv : ∀ i j, 0 ≤ s.vaporAt i j ∧ s.vaporAt i j ≤ 1) :
    (∀ i j,
      (s.meltAt i j ≤ (HeatSolver.stepCore phys s n).meltAt i j ∧
        (HeatSolver.stepCore phys s n).meltAt i j ≤ 1 ∧
        0 ≤ (HeatSolver.stepCore phys s n).meltAt i j) ∧
      (s.vaporAt i j ≤ (HeatSolver.stepCore phys s n).vaporAt i j ∧
        (HeatSolver.stepCore phys s n).vaporAt i j ≤ 1 ∧
        0 ≤ (HeatSolver.stepCore phys s n).vaporAt i j)) ∧
      s.total_phase_change_energy ≤
        (HeatSolver.stepCore phys s n).total_phase_change_energy := by
  unfold HeatSolver.stepCore
  simp only [meltAt_writeHistories, vaporAt_writeHistories, writeHistories_energy]
  unfold HeatSolver.advance
  dsimp only
  split_ifs with hen
  · unfold HeatSolver.updatePhaseCore
    rw [if_pos hen]
    have h1 := updateMelt_mono
      (({ s with current_step := n }).solveStepCore
        (HeatSolver.calculate_sources phys { s with current_step := n }))
      hrho hcp hV hLf hbm
    have hp2 := updateMelt_params
      (({ s with current_step := n }).solveStepCore
        (HeatSolver.calculate_sources phys { s with current_step := n }))
    have hm2 := updateMelt_mesh
      (({ s with current_step := n }).solveStepCore
        (HeatSolver.calculate_sources phys { s with current_step := n }))
    have h2 := updateVapor_mono
      ((({ s with current_step := n }).solveStepCore
        (HeatSolver.calculate_sources phys { s with current_step := n })).updateMelt)
      (by rw [hp2]; exact hrho) (by rw [hp2]; exact hcp)
      (by rw [hp2, hm2]; exact hV) (by rw [hp2]; exact hLv)
      (by
        intro i j
        rw [vaporAt_updateMelt]
        exact hbv i j)
    refine ⟨fun i j => ?_, ?_⟩
    · refine ⟨⟨?_, ?_, ?_⟩, ?_⟩
      · rw [meltAt_updateVapor]
        exact (h1.1 i j).1
      · rw [meltAt_updateVapor]
        exact (h1.1 i j).2.1
      · rw [meltAt_updateVapor]
        exact (h1.1 i j).2.2
      · have hv := h2.1 i j
        rw [vaporAt_updateMelt] at hv
        exact hv
    · exact le_trans h1.2 h2.2
  · exact ⟨fun i j => ⟨⟨le_refl _, (hbm i j).2, (hbm i j).1⟩,
      ⟨le_refl _, (hbv i j).2, (hbv i j).1⟩⟩, le_refl _⟩

/-- C7: with phase changes enabled and positive density, specific
heat, cell volumes and (set) latent heats, both phase fractions stay
within `[0, 1]` at every step and cell, are non-decreasing from each
step to the next, and the accumulated phase-change energy is
non-decreasing over steps. -/
theorem phase_fraction_invariants (phys : PhysicsModel) (params : SimulationParameters)
    (s0 : HeatSolver)
    (hnew : HeatSolver.new params = Except.ok s0)
    (_hen : params.enable_phase_changes = true)
    (hrho : 0 < params.material.density)
    (hcp : 0 < params.material.specific_heat)
    (hV : ∀ i, i < params.nr → ∀ j, j < params.nz → 0 < s0.mesh.cell_volumes i j)
    (hLf : 0 < params.material.latent_heat_fusion.getD 1)
    (hLv : 0 < params.material.latent_heat_vaporization.getD 1) :
    ∀ n,
      (∀ i j, 0 ≤ (HeatSolver.runN phys s0 n).meltAt i j ∧
        (HeatSolver.runN phys s0 n).meltAt i j ≤ 1 ∧
        0 ≤ (HeatSolver.runN phys s0 n).vaporAt i j ∧
        (HeatSolver.runN phys s0 n).vaporAt i j ≤ 1) ∧
      (∀ i j, (HeatSolver.runN phys s0 n).meltAt i j ≤
          (HeatSolver.runN phys s0 (n + 1)).meltAt i j ∧
        (HeatSolver.runN phys s0 n).vaporAt i j ≤
          (HeatSolver.runN phys s0 (n + 1)).vaporAt i j) ∧
      (HeatSolver.runN phys s0 n).total_phase_change_energy ≤
        (HeatSolver.runN phys s0 (n + 1)).total_phase_change_energy := by
  obtain ⟨-, rfl⟩ := (new_ok_iff params s0).mp hnew
  have hrho2 : ∀ n, 0 <
      (HeatSolver.runN phys (HeatSolver.newCore params) n).params.material.density := by
    intro n
    rw [runN_params, newCore_params]
    exact hrho
  have hcp2 : ∀ n, 0 <
      (HeatSolver.runN phys (HeatSolver.newCore params) n).params.material.specific_heat := by
    intro n
    rw [runN_params, newCore_params]
    exact hcp
  have hV2 : ∀ n, ∀ i,
      i < (HeatSolver.runN phys (HeatSolver.newCore params) n).params.nr → ∀ j,
      j < (HeatSolver.runN phys (HeatSolver.newCore params) n).params.nz →
      0 < (HeatSolver.runN phys (HeatSolver.newCore params) n).mesh.cell_volumes i j := by
    intro n
    rw [runN_params, newCore_params, runN_mesh]
    exact hV
  have hLf2 : ∀ n, 0 <
      ((HeatSolver.runN phys (HeatSolver.newCore params) n).params.material.latent_heat_fusion).getD 1 := by
    intro n
    rw [runN_params, newCore_params]
    exact hLf
  have hLv2 : ∀ n, 0 <
      ((HeatSolver.runN phys (HeatSolver.newCore params) n).params.material.latent_heat_vaporization).getD 1 := by
    intro n
    rw [runN_params, newCore_params]
    exact hLv
  have bounds : ∀ n,
      (∀ i j, 0 ≤ (HeatSolver.runN phys (HeatSolver.newCore params) n).meltAt i j ∧
        (HeatSolver.runN phys (HeatSolver.newCore params) n).meltAt i j ≤ 1) ∧
      (∀ i j, 0 ≤ (HeatSolver.runN phys (HeatSolver.newCore params) n).vaporAt i j ∧
        (HeatSolver.runN phys (HeatSolver.newCore params) n).vaporAt i j ≤ 1) := by
    intro n
    induction n with
    | zero =>
      constructor
      · intro i j
        constructor
        · show (0 : ℚ) ≤ (HeatSolver.newCore params).meltAt i j
          rw [meltAt_newCore]
        · show (HeatSolver.newCore params).meltAt i j ≤ 1
          rw [meltAt_newCore]
          norm_num
      · intro i j
        constructor
        · show (0 : ℚ) ≤ (HeatSolver.newCore params).vaporAt i j
          rw [vaporAt_newCore]
        · show (HeatSolver.newCore params).vaporAt i j ≤ 1
          rw [vaporAt_newCore]
          norm_num
    | succ n ih =>
      have h := stepCore_mono phys (HeatSolver.runN phys (HeatSolver.newCore params) n) n
        (hrho2 n) (hcp2 n) (hV2 n) (hLf2 n) (hLv2 n) ih.1 ih.2
      constructor
      · intro i j
        exact ⟨((h.1 i j).1).2.2, ((h.1 i j).1).2.1⟩
      · intro i j
        exact ⟨((h.1 i j).2).2.2, ((h.1 i j).2).2.1⟩
  intro n
  have h := stepCore_mono phys (HeatSolver.runN phys (HeatSolver.newCore params) n) n
    (hrho2 n) (hcp2 n) (hV2 n) (hLf2 n) (hLv2 n) (bounds n).1 (bounds n).2
  exact ⟨fun i j => ⟨((bounds n).1 i j).1, ((bounds n).1 i j).2, ((bounds n).2 i j).1,
      ((bounds n).2 i j).2⟩,
    fun i j => ⟨(h.1 i j).1.1, (h.1 i j).2.1⟩, h.2⟩

/-- C7 (witness): the invariants at the concrete meltable 2×2 run
after one step. -/
theorem phase_fraction_invariants_witness :
    ((0 : ℚ) ≤ (HeatSolver.runN trivialPhysics exampleSolver7 1).meltAt 0 0 ∧
      (HeatSolver.runN trivialPhysics exampleSolver7 1).meltAt 0 0 ≤ 1) ∧
      (HeatSolver.runN trivialPhysics exampleSolver7 0).meltAt 0 0 ≤
        (HeatSolver.runN trivialPhysics exampleSolver7 1).meltAt 0 0 ∧
      (HeatSolver.runN trivialPhysics exampleSolver7 0).total_phase_change_energy ≤
        (HeatSolver.runN trivialPhysics exampleSolver7 1).total_phase_change_energy := by
  have h := phase_fraction_invariants trivialPhysics cex7Params exampleSolver7 rfl rfl
    (by show (0 : ℚ) < 1; norm_num)
    (by show (0 : ℚ) < 1; norm_num)
    (by
      intro i hi j hj
      have hi2 : i < 2 := hi
      have hj2 : j < 2 := hj
      interval_cases i <;> interval_cases j <;>
        norm_num [exampleSolver7, HeatSolver.newCore, cex7Params, baseParams,
          CylindricalMesh.new, float_pi])
    (by show (0 : ℚ) < 2; norm_num)
    (by show (0 : ℚ) < 1; norm_num)
  exact ⟨⟨((h 1).1 0 0).1, ((h 1).1 0 0).2.1⟩, ((h 0).2.1 0 0).1, (h 0).2.2⟩
